import Mathlib

/-!
Verification of the `urw-scroll-table` table widget
(`src/urw_scroll_table/table.py`, class `UrwScrollTable`).

Modelling conventions:
* Python strings are `List Char` (`PyStr`); cell values are modelled as
  strings, so `str(cell)` is the identity.
* The mutable scalar attributes of the widget (`current_row`, `current_col`,
  `vertical_offset`, `horizontal_offset`, `max_width`, `max_height`) are
  Python ints and are modelled as `Int`.
* Python list indexing/assignment is modelled by `pyGet` / `pySet`
  (negative indices read from the back, exactly as in Python; the
  out-of-range case, which raises in Python, returns the supplied default /
  leaves the list unchanged).
* State living in child urwid widgets rather than in the table object
  (the open dropdown popup `_pop_up_widget`, the text held by an edit
  widget in `edit_widgets`, the option committed by the popup listbox) is
  made explicit: `popup_open` is carried in the state, and `Env` carries
  the edit-widget inputs consumed by `keypress`.
* Rendering-only structures (urwid canvases, the header widget, the listbox
  focus) are not modelled; `table_widgets` is modelled by `RowWidget`.
-/

set_option maxHeartbeats 1000000

namespace UrwScrollTable

/-- Python strings, modelled as lists of characters. -/
abbrev PyStr := List Char

/-- Python list read `l[i]`: a nonnegative index reads from the front, a
negative index reads from the back (`l[-k] = l[len l - k]`); the
out-of-range access, which raises `IndexError` in Python, yields `d`. -/
def pyGet {α : Type} (l : List α) (i : Int) (d : α) : α :=
  if 0 ≤ i then l.getD i.toNat d
  else if (-i).toNat ≤ l.length then l.getD (l.length - (-i).toNat) d else l.getD l.length d

/-- Python list assignment `l[i] = v` (same index convention as `pyGet`;
the out-of-range case, which raises in Python, leaves the list unchanged). -/
def pySet {α : Type} (l : List α) (i : Int) (v : α) : List α :=
  if 0 ≤ i then l.set i.toNat v
  else if (-i).toNat ≤ l.length then l.set (l.length - (-i).toNat) v else l

/-- Python `s.ljust n`: pad on the right with spaces up to length `n`. -/
def ljust (s : PyStr) (n : Nat) : PyStr := s ++ List.replicate (n - s.length) ' '

/-- Python `range(a, b)` over integers. -/
def intRange (a b : Int) : List Int :=
  (List.range (b - a).toNat).map (fun (n : Nat) => a + (n : Int))

/-- The descending list `[n, n-1, ..., 0]`; helper for `downRange`. -/
def downFrom : Nat → List Int
  | 0 => [0]
  | n + 1 => ((n : Int) + 1) :: downFrom n

/-- Python `range(c, -1, -1)`: the list `[c, c-1, ..., 0]` when `0 ≤ c`,
and the empty list otherwise. -/
def downRange (c : Int) : List Int := if 0 ≤ c then downFrom c.toNat else []

/-- `SingleLineText` replaces every newline by a space. -/
def single_line (s : PyStr) : PyStr := s.map (fun c => if c = '\n' then ' ' else c)

/-- The column-type string "text". -/
def typeText : PyStr := "text".toList

/-- The column-type string "editable". -/
def typeEditable : PyStr := "editable".toList

/-- The column-type string "dropdown". -/
def typeDropdown : PyStr := "dropdown".toList

/-- One element of `row_parts` in `_create_text_row`: a `PopupDropdownCell`
(content, options and `max_width` argument) or a text widget; `selected`
records whether the part was wrapped in the `'selected'` `AttrMap`. -/
inductive RowPart
  | dropdown (content : PyStr) (options : List PyStr) (maxw : Int) (selected : Bool)
  | text (t : PyStr) (selected : Bool)
  deriving DecidableEq

/-- The edit widget created for the cell being edited in
`_create_editing_row`: a `PopupDropdownCell` or an `EditableCell`. -/
inductive EditWidgetModel
  | dropdownW (content : PyStr) (options : List PyStr)
  | editW (content : PyStr)
  deriving DecidableEq

/-- A row widget appended to `table_widgets`: an `urwid.Columns` row (used
when a dropdown part is present), a `SingleLineText` row, or an editing row
(the edit widget itself, or a `SingleLineText` with the row text when no
edit widget was created); the `AttrMap` wrappers are not recorded. -/
inductive RowWidget
  | columnsRow (parts : List RowPart)
  | textRow (t : PyStr)
  | editWidgetRow (w : EditWidgetModel)
  | editTextRow (t : PyStr)
  deriving DecidableEq

/-- The state of an `UrwScrollTable` widget.  `column_types` models
`self.column_types.get (i, 'text')` (the dict with its default), and
`dropdown_options` models the `dropdown_options` dict (`none` = key absent).
`popup_open` models whether the dropdown widget of the current cell has its
`_pop_up_widget` set (state held in the child widget in the source). -/
structure Table where
  headers : List PyStr
  data : List (List PyStr)
  max_width : Int
  max_height : Int
  horizontal_offset : Int
  vertical_offset : Int
  current_row : Int
  current_col : Int
  editing : Bool
  column_widths : List Nat
  column_types : Int → PyStr
  dropdown_options : Int → Option (List PyStr)
  table_widgets : List RowWidget
  popup_open : Bool

/-- `_calculate_column_widths`: for each column, the maximum of the header
length and the lengths of the cells present in that column. -/
def calculate_column_widths (headers : List PyStr) (data : List (List PyStr)) : List Nat :=
  (List.range headers.length).map (fun c =>
    data.foldl (fun m row => if c < row.length then max m (row.getD c []).length else m)
      (headers.getD c []).length)

/-- `_process_column_types` for the `None` and list inputs: the resulting
dict, read through `.get (i, 'text')`. -/
def process_column_types (cts : Option (List PyStr)) : Int → PyStr :=
  fun i =>
    match cts with
    | none => typeText
    | some l => if h : 0 ≤ i ∧ i.toNat < l.length then l.get ⟨i.toNat, h.2⟩ else typeText

/-- `_get_dropdown_options`: the per-column options dict, with the
hard-coded fallbacks for columns 2, 3 and 4. -/
def get_dropdown_options (t : Table) (col_idx : Int) : List PyStr :=
  match t.dropdown_options col_idx with
  | some opts => opts
  | none =>
    if col_idx = 2 then
      ["Engineering Department".toList, "Marketing Department".toList,
       "Sales Department".toList, "Human Resources".toList,
       "Finance Department".toList, "IT Department".toList,
       "Operations Department".toList, "Legal Department".toList]
    else if col_idx = 3 then
      ["Active".toList, "Inactive".toList, "Pending".toList]
    else if col_idx = 4 then
      ["1".toList, "2".toList, "3".toList, "4".toList, "5".toList,
       "6".toList, "7".toList, "8".toList, "9".toList, "10".toList]
    else []

/-- The loop of `_get_visible_columns`: keep taking columns while the
accumulated width (`+2` padding per column) fits in `avail`. -/
def visible_cols_go (widths : List Nat) (cols : List Int) (avail : Int) (cur : Int) : List Int :=
  match cols with
  | [] => []
  | c :: rest =>
    let cw : Int := ((pyGet widths c 0 : Nat) : Int) + 2
    if cur + cw ≤ avail then c :: visible_cols_go widths rest avail (cur + cw) else []

/-- `_get_visible_columns`: the columns from `horizontal_offset` on that fit
in `available_width`. -/
def get_visible_columns (t : Table) (available_width : Int) : List Int :=
  visible_cols_go t.column_widths (intRange t.horizontal_offset t.headers.length)
    available_width 0

/-- `_get_half_page_size`: half of `max_height or 20`, at least 1
(Python `//` is floor division). -/
def get_half_page_size (t : Table) : Int :=
  let page_size := if t.max_height = 0 then 20 else t.max_height
  max 1 (Int.fdiv page_size 2)

/-- The body of the loop of `_create_text_row` for one visible column:
either a `PopupDropdownCell` part or a truncated, padded text part (cells
are strings here, so `str(cell_data)` is the cell itself); a column index
beyond the row length yields a blank text part. -/
def create_cell_part (t : Table) (row_idx : Int) (row : List PyStr) (col_idx : Int) : RowPart :=
  if col_idx < (row.length : Int) then
    let cell := pyGet row col_idx []
    let w := pyGet t.column_widths col_idx 0
    if t.column_types col_idx = typeDropdown then
      RowPart.dropdown cell (get_dropdown_options t col_idx) ((w : Int) + 2)
        (row_idx == t.current_row && col_idx == t.current_col)
    else
      RowPart.text (ljust (cell.take w) (w + 2))
        (row_idx == t.current_row && col_idx == t.current_col)
  else
    RowPart.text (List.replicate (pyGet t.column_widths col_idx 0 + 2) ' ') false

/-- Whether a row part is a `PopupDropdownCell` (also when wrapped in
`AttrMap`), as tested by `has_dropdown` in `_create_text_row`. -/
def is_dropdown_part : RowPart → Bool
  | RowPart.dropdown _ _ _ _ => true
  | RowPart.text _ _ => false

/-- The text extracted from a part when assembling an all-text row
(the dropdown case is unreachable there: rows with a dropdown part use
`urwid.Columns`). -/
def part_text : RowPart → PyStr
  | RowPart.text s _ => s
  | RowPart.dropdown _ _ _ _ => []

/-- `_create_text_row`: an `urwid.Columns` row when some part is a
dropdown, otherwise a `SingleLineText` of the concatenated cell texts. -/
def create_text_row (t : Table) (row_idx : Int) (row : List PyStr) (visible : List Int) :
    RowWidget :=
  let parts := visible.map (create_cell_part t row_idx row)
  if parts.any is_dropdown_part then RowWidget.columnsRow parts
  else RowWidget.textRow (single_line (List.flatten (parts.map part_text)))

/-- The body of the loop of `_create_editing_row` for one visible column:
extends the accumulated row text and possibly creates the edit widget
(for the current cell, depending on the column type). -/
def editing_row_step (t : Table) (row_idx : Int) (row : List PyStr)
    (st : PyStr × Option EditWidgetModel) (col_idx : Int) : PyStr × Option EditWidgetModel :=
  if col_idx < (row.length : Int) then
    let cell := pyGet row col_idx []
    let ctype := t.column_types col_idx
    let isCur := col_idx == t.current_col && row_idx == t.current_row && t.editing
    let ew :=
      if isCur then
        if ctype = typeDropdown then
          some (EditWidgetModel.dropdownW cell (get_dropdown_options t col_idx))
        else if ctype = typeEditable then some (EditWidgetModel.editW cell)
        else st.2
      else st.2
    let cell_text := if isCur then "[EDITING]".toList else cell
    let w := pyGet t.column_widths col_idx 0
    (st.1 ++ ljust (cell_text.take w) (w + 2), ew)
  else
    (st.1 ++ List.replicate (pyGet t.column_widths col_idx 0 + 2) ' ', st.2)

/-- `_create_editing_row`: the edit widget if one was created, otherwise a
`SingleLineText` with the accumulated row text (`AttrMap 'edit'` omitted). -/
def create_editing_row (t : Table) (row_idx : Int) (row : List PyStr) (visible : List Int) :
    RowWidget :=
  let res := visible.foldl (editing_row_step t row_idx row) ([], none)
  match res.2 with
  | some w => RowWidget.editWidgetRow w
  | none => RowWidget.editTextRow res.1

/-- The per-row dispatch of `_create_table_widgets`: the editing row when
the row holds the currently edited, visible cell, else a text row. -/
def build_row_widget (t : Table) (visible : List Int) (row_idx : Int) (row : List PyStr) :
    RowWidget :=
  if row_idx == t.current_row && visible.contains t.current_col && t.editing then
    create_editing_row t row_idx row visible
  else create_text_row t row_idx row visible

/-- `_create_table_widgets`, restricted to the data rows it appends to
`self.table_widgets` (the header widget it also rebuilds is rendering-only
and is not modelled): one widget per `i in range(visible_rows)` whose row
index `vertical_offset + i` is in range. -/
def create_table_widgets (t : Table) : List RowWidget :=
  let available_width := if t.max_width = 0 then 80 else t.max_width
  let visible := get_visible_columns t available_width
  let visible_rows : Int := min (t.max_height - 1) ((t.data.length : Int) - t.vertical_offset)
  (List.range visible_rows.toNat).foldl
    (fun (acc : List RowWidget) (i : Nat) =>
      let row_idx : Int := t.vertical_offset + (i : Int)
      if row_idx < (t.data.length : Int) then
        acc ++ [build_row_widget t visible row_idx (pyGet t.data row_idx [])]
      else acc) []

/-- Resolution of the `available_width` argument of
`_ensure_current_cell_visible`: `self.max_width or 80` when `None`. -/
def resolve_width (t : Table) (aw? : Option Int) : Int :=
  match aw? with
  | some w => w
  | none => if t.max_width = 0 then 80 else t.max_width

/-- The vertical half of `_ensure_current_cell_visible`: scroll up when the
current row is above the window, down when it is below
(`available_data_height = max_height - 1`, one line for the header). -/
def ensure_vertical (t : Table) : Table :=
  let adh := t.max_height - 1
  if t.current_row < t.vertical_offset then { t with vertical_offset := t.current_row }
  else if t.vertical_offset + adh ≤ t.current_row then
    { t with vertical_offset := max 0 (t.current_row - adh + 1) }
  else t

/-- The loop of the horizontal half of `_ensure_current_cell_visible`:
walk from `current_col` down to 0 (`cols` is `range(current_col, -1, -1)`),
prepending each column while the accumulated width fits; stop at the first
column that does not fit. -/
def cols_to_show_go (widths : List Nat) (cols : List Int) (avail : Int) (total : Int)
    (acc : List Int) : List Int :=
  match cols with
  | [] => acc
  | c :: rest =>
    let cw : Int := ((pyGet widths c 0 : Nat) : Int) + 2
    if total + cw ≤ avail then cols_to_show_go widths rest avail (total + cw) (c :: acc)
    else acc

/-- The horizontal half of `_ensure_current_cell_visible`: when the current
column is not among the visible ones, scroll left to it, or scroll right so
that the suffix of columns ending at `current_col` that fits is shown. -/
def fix_horizontal (t : Table) (aw : Int) : Table :=
  if t.current_col ∈ get_visible_columns t aw then t
  else if t.current_col < t.horizontal_offset then
    { t with horizontal_offset := max 0 t.current_col }
  else
    match cols_to_show_go t.column_widths (downRange t.current_col) aw 0 [] with
    | [] => t
    | j :: _ => { t with horizontal_offset := j }

/-- `_ensure_current_cell_visible`: the vertical adjustment followed by the
horizontal one. -/
def ensure_current_cell_visible (t : Table) (aw? : Option Int) : Table :=
  fix_horizontal (ensure_vertical t) (resolve_width t aw?)

/-- `_update_display`: ensure the current cell is visible, then rebuild
`table_widgets` (the listbox body swap and focus restoration touch only
rendering state; rebuilding replaces every dropdown widget by a fresh one
whose popup is closed, hence `popup_open := false`). -/
def update_display (t : Table) (aw? : Option Int) : Table :=
  let t1 := ensure_current_cell_visible t aw?
  { t1 with table_widgets := create_table_widgets t1, popup_open := false }

/-- `_on_cell_change`: write the cell and leave editing mode when both
indices are in range, do nothing at all otherwise. -/
def on_cell_change (t : Table) (row col : Int) (new_value : PyStr) : Table :=
  if row < (t.data.length : Int) ∧ col < ((pyGet t.data row []).length : Int) then
    update_display
      { t with data := pySet t.data row (pySet (pyGet t.data row []) col new_value),
               editing := false } none
  else t

/-- `_get_current_dropdown_widget`, as a predicate: whether the widget of
the current row is a `Columns` row whose part at the position of
`current_col` among the visible columns is a `PopupDropdownCell`. -/
def has_current_dropdown_widget (t : Table) : Bool :=
  let idx := t.current_row - t.vertical_offset
  if h : 0 ≤ idx ∧ idx.toNat < t.table_widgets.length then
    match t.table_widgets.get ⟨idx.toNat, h.2⟩ with
    | RowWidget.columnsRow parts =>
      let visible := get_visible_columns t (if t.max_width = 0 then 80 else t.max_width)
      match visible.findIdx? (fun c => c == t.current_col) with
      | some j =>
        match parts.getD j (RowPart.text [] false) with
        | RowPart.dropdown _ _ _ _ => true
        | RowPart.text _ _ => false
      | none => false
    | _ => false
  else false

/-- `_trigger_dropdown_popup`: open the popup of the current dropdown
widget when there is one (`open_pop_up` sets the child widget's
`_pop_up_widget`, modelled by `popup_open`). -/
def trigger_dropdown_popup (t : Table) : Table :=
  if has_current_dropdown_widget t then { t with popup_open := true } else t

/-- `_start_editing_current_cell`: refuse when the cursor is outside the
data or the column type is `'text'`; otherwise set `editing` and update the
display (`_show_edit_overlay` only creates the external edit widget). -/
def start_editing_current_cell (t : Table) : Table :=
  if (t.data.length : Int) ≤ t.current_row then t
  else if ((pyGet t.data t.current_row []).length : Int) ≤ t.current_col then t
  else if t.column_types t.current_col = typeText then t
  else update_display { t with editing := true } none

/-- The external-widget inputs a `keypress` call may consume:
`popup_choice` is the option committed by the popup listbox on `'enter'`
(`none` when its text lookup fails), `edit_text` is the text held by the
edit widget registered for the current cell (`none` when
`edit_widgets` has no widget there), and `edit_handled` is whether that
widget consumed a key forwarded to it. -/
structure Env where
  popup_choice : Option PyStr
  edit_text : Option PyStr
  edit_handled : Bool

/-- The outcome of `keypress`: key consumed (`None` returned), key passed
back to urwid, or `urwid.ExitMainLoop` raised. -/
inductive KeyRes
  | consumed
  | passKey (k : PyStr)
  | exitLoop
  deriving DecidableEq

/-- The navigation-mode part of `keypress` (the chain from `'enter'` to
`'q'` in the non-editing branch). -/
def navigation_keypress (t : Table) (key : PyStr) : Table × KeyRes :=
  if key = "enter".toList then
    if t.column_types t.current_col = typeDropdown then
      (trigger_dropdown_popup t, KeyRes.consumed)
    else (start_editing_current_cell t, KeyRes.consumed)
  else if key = "up".toList then
    (if 0 < t.current_row then
        update_display
          (ensure_current_cell_visible { t with current_row := t.current_row - 1 } none) none
      else t, KeyRes.consumed)
  else if key = "down".toList then
    (if t.current_row < (t.data.length : Int) - 1 then
        update_display
          (ensure_current_cell_visible { t with current_row := t.current_row + 1 } none) none
      else t, KeyRes.consumed)
  else if key = "left".toList then
    (if 0 < t.current_col then
        update_display
          (ensure_current_cell_visible { t with current_col := t.current_col - 1 } none) none
      else t, KeyRes.consumed)
  else if key = "right".toList then
    (if t.current_col < (t.headers.length : Int) - 1 then
        update_display
          (ensure_current_cell_visible { t with current_col := t.current_col + 1 } none) none
      else t, KeyRes.consumed)
  else if key = "page up".toList then
    let h := get_half_page_size t
    let t1 := { t with vertical_offset := max 0 (t.vertical_offset - h),
                       current_row := max 0 (t.current_row - h) }
    (update_display (ensure_current_cell_visible t1 none) none, KeyRes.consumed)
  else if key = "page down".toList then
    let h := get_half_page_size t
    let max_offset := max 0 ((t.data.length : Int) - (t.max_height - 1))
    let t1 := { t with vertical_offset := min max_offset (t.vertical_offset + h),
                       current_row := min ((t.data.length : Int) - 1) (t.current_row + h) }
    (update_display (ensure_current_cell_visible t1 none) none, KeyRes.consumed)
  else if key = "q".toList then (t, KeyRes.exitLoop)
  else (t, KeyRes.passKey key)

/-- `keypress`.  In editing mode: `'esc'` cancels, `'enter'` commits the
edit widget's text through `_on_cell_change` (just leaves editing mode when
no widget is registered), other keys are forwarded to the edit widget.
Otherwise, when the current cell's dropdown widget has an open popup, the
six listed keys are delegated to it (`'enter'` commits the popup's choice
through the widget's `_on_cell_change` callback and closes the popup,
`'esc'` closes it, the navigation keys move only inside the popup); any
other key falls through to the navigation handling. -/
def keypress (env : Env) (t : Table) (key : PyStr) : Table × KeyRes :=
  if t.editing then
    if key = "esc".toList then
      (update_display { t with editing := false } none, KeyRes.consumed)
    else if key = "enter".toList then
      match env.edit_text with
      | some v => (on_cell_change t t.current_row t.current_col v, KeyRes.consumed)
      | none => (update_display { t with editing := false } none, KeyRes.consumed)
    else
      match env.edit_text with
      | some _ => (t, if env.edit_handled then KeyRes.consumed else KeyRes.passKey key)
      | none => (update_display { t with editing := false } none, KeyRes.consumed)
  else
    if has_current_dropdown_widget t && t.popup_open then
      if key = "up".toList ∨ key = "down".toList ∨ key = "page up".toList ∨
          key = "page down".toList then
        (t, KeyRes.consumed)
      else if key = "enter".toList then
        match env.popup_choice with
        | some v =>
          ({ on_cell_change t t.current_row t.current_col v with popup_open := false },
            KeyRes.consumed)
        | none => (t, KeyRes.consumed)
      else if key = "esc".toList then
        ({ t with popup_open := false }, KeyRes.consumed)
      else navigation_keypress t key
    else navigation_keypress t key

/-- The constructor `UrwScrollTable.__init__` (colors and the edit-color
are rendering-only and omitted; `column_types` and `dropdown_options` are
passed in already-processed form, see `process_column_types`). -/
def mkTable (headers : List PyStr) (data : List (List PyStr)) (max_width max_height : Int)
    (column_types : Int → PyStr) (dropdown_options : Int → Option (List PyStr)) : Table :=
  let t0 : Table := {
    headers := headers, data := data, max_width := max_width, max_height := max_height,
    horizontal_offset := 0, vertical_offset := 0, current_row := 0, current_col := 0,
    editing := false, column_widths := calculate_column_widths headers data,
    column_types := column_types, dropdown_options := dropdown_options,
    table_widgets := [], popup_open := false }
  { t0 with table_widgets := create_table_widgets t0 }

/-! Field-preservation lemmas for the state-updating operations. -/

theorem ensure_vertical_eq (t : Table) :
    ensure_vertical t = { t with vertical_offset :=
      (if t.current_row < t.vertical_offset then t.current_row
       else if t.vertical_offset + (t.max_height - 1) ≤ t.current_row then
         max 0 (t.current_row - (t.max_height - 1) + 1)
       else t.vertical_offset) } := by
  unfold ensure_vertical
  by_cases h1 : t.current_row < t.vertical_offset
  · simp [h1]
  · by_cases h2 : t.vertical_offset + (t.max_height - 1) ≤ t.current_row <;> simp [h1, h2]

@[simp] theorem ensure_vertical_current_row (t : Table) :
    (ensure_vertical t).current_row = t.current_row := by rw [ensure_vertical_eq]

@[simp] theorem ensure_vertical_current_col (t : Table) :
    (ensure_vertical t).current_col = t.current_col := by rw [ensure_vertical_eq]

@[simp] theorem ensure_vertical_data (t : Table) :
    (ensure_vertical t).data = t.data := by rw [ensure_vertical_eq]

@[simp] theorem ensure_vertical_headers (t : Table) :
    (ensure_vertical t).headers = t.headers := by rw [ensure_vertical_eq]

@[simp] theorem ensure_vertical_max_height (t : Table) :
    (ensure_vertical t).max_height = t.max_height := by rw [ensure_vertical_eq]

@[simp] theorem ensure_vertical_max_width (t : Table) :
    (ensure_vertical t).max_width = t.max_width := by rw [ensure_vertical_eq]

@[simp] theorem ensure_vertical_column_widths (t : Table) :
    (ensure_vertical t).column_widths = t.column_widths := by rw [ensure_vertical_eq]

@[simp] theorem ensure_vertical_column_types (t : Table) :
    (ensure_vertical t).column_types = t.column_types := by rw [ensure_vertical_eq]

@[simp] theorem ensure_vertical_horizontal_offset (t : Table) :
    (ensure_vertical t).horizontal_offset = t.horizontal_offset := by rw [ensure_vertical_eq]

@[simp] theorem ensure_vertical_editing (t : Table) :
    (ensure_vertical t).editing = t.editing := by rw [ensure_vertical_eq]

@[simp] theorem ensure_vertical_popup_open (t : Table) :
    (ensure_vertical t).popup_open = t.popup_open := by rw [ensure_vertical_eq]

@[simp] theorem ensure_vertical_dropdown_options (t : Table) :
    (ensure_vertical t).dropdown_options = t.dropdown_options := by rw [ensure_vertical_eq]

theorem ensure_vertical_vertical_offset (t : Table) :
    (ensure_vertical t).vertical_offset =
      (if t.current_row < t.vertical_offset then t.current_row
       else if t.vertical_offset + (t.max_height - 1) ≤ t.current_row then
         max 0 (t.current_row - (t.max_height - 1) + 1)
       else t.vertical_offset) := by rw [ensure_vertical_eq]

theorem fix_horizontal_proj (t : Table) (aw : Int) :
    (fix_horizontal t aw).current_row = t.current_row ∧
    (fix_horizontal t aw).current_col = t.current_col ∧
    (fix_horizontal t aw).data = t.data ∧
    (fix_horizontal t aw).headers = t.headers ∧
    (fix_horizontal t aw).max_height = t.max_height ∧
    (fix_horizontal t aw).max_width = t.max_width ∧
    (fix_horizontal t aw).column_widths = t.column_widths ∧
    (fix_horizontal t aw).column_types = t.column_types ∧
    (fix_horizontal t aw).vertical_offset = t.vertical_offset ∧
    (fix_horizontal t aw).editing = t.editing ∧
    (fix_horizontal t aw).popup_open = t.popup_open ∧
    (fix_horizontal t aw).dropdown_options = t.dropdown_options := by
  unfold fix_horizontal
  split
  · exact ⟨rfl, rfl, rfl, rfl, rfl, rfl, rfl, rfl, rfl, rfl, rfl, rfl⟩
  · split
    · exact ⟨rfl, rfl, rfl, rfl, rfl, rfl, rfl, rfl, rfl, rfl, rfl, rfl⟩
    · split <;> exact ⟨rfl, rfl, rfl, rfl, rfl, rfl, rfl, rfl, rfl, rfl, rfl, rfl⟩

@[simp] theorem fix_horizontal_current_row (t : Table) (aw : Int) :
    (fix_horizontal t aw).current_row = t.current_row := (fix_horizontal_proj t aw).1

@[simp] theorem fix_horizontal_current_col (t : Table) (aw : Int) :
    (fix_horizontal t aw).current_col = t.current_col := (fix_horizontal_proj t aw).2.1

@[simp] theorem fix_horizontal_data (t : Table) (aw : Int) :
    (fix_horizontal t aw).data = t.data := (fix_horizontal_proj t aw).2.2.1

@[simp] theorem fix_horizontal_headers (t : Table) (aw : Int) :
    (fix_horizontal t aw).headers = t.headers := (fix_horizontal_proj t aw).2.2.2.1

@[simp] theorem fix_horizontal_max_height (t : Table) (aw : Int) :
    (fix_horizontal t aw).max_height = t.max_height := (fix_horizontal_proj t aw).2.2.2.2.1

@[simp] theorem fix_horizontal_max_width (t : Table) (aw : Int) :
    (fix_horizontal t aw).max_width = t.max_width := (fix_horizontal_proj t aw).2.2.2.2.2.1

@[simp] theorem fix_horizontal_column_widths (t : Table) (aw : Int) :
    (fix_horizontal t aw).column_widths = t.column_widths :=
  (fix_horizontal_proj t aw).2.2.2.2.2.2.1

@[simp] theorem fix_horizontal_column_types (t : Table) (aw : Int) :
    (fix_horizontal t aw).column_types = t.column_types :=
  (fix_horizontal_proj t aw).2.2.2.2.2.2.2.1

@[simp] theorem fix_horizontal_vertical_offset (t : Table) (aw : Int) :
    (fix_horizontal t aw).vertical_offset = t.vertical_offset :=
  (fix_horizontal_proj t aw).2.2.2.2.2.2.2.2.1

@[simp] theorem fix_horizontal_editing (t : Table) (aw : Int) :
    (fix_horizontal t aw).editing = t.editing :=
  (fix_horizontal_proj t aw).2.2.2.2.2.2.2.2.2.1

@[simp] theorem fix_horizontal_popup_open (t : Table) (aw : Int) :
    (fix_horizontal t aw).popup_open = t.popup_open :=
  (fix_horizontal_proj t aw).2.2.2.2.2.2.2.2.2.2.1

@[simp] theorem fix_horizontal_dropdown_options (t : Table) (aw : Int) :
    (fix_horizontal t aw).dropdown_options = t.dropdown_options :=
  (fix_horizontal_proj t aw).2.2.2.2.2.2.2.2.2.2.2

@[simp] theorem ensure_current_row (t : Table) (a : Option Int) :
    (ensure_current_cell_visible t a).current_row = t.current_row := by
  unfold ensure_current_cell_visible; simp

@[simp] theorem ensure_current_col (t : Table) (a : Option Int) :
    (ensure_current_cell_visible t a).current_col = t.current_col := by
  unfold ensure_current_cell_visible; simp

@[simp] theorem ensure_data (t : Table) (a : Option Int) :
    (ensure_current_cell_visible t a).data = t.data := by
  unfold ensure_current_cell_visible; simp

@[simp] theorem ensure_headers (t : Table) (a : Option Int) :
    (ensure_current_cell_visible t a).headers = t.headers := by
  unfold ensure_current_cell_visible; simp

@[simp] theorem ensure_max_height (t : Table) (a : Option Int) :
    (ensure_current_cell_visible t a).max_height = t.max_height := by
  unfold ensure_current_cell_visible; simp

@[simp] theorem ensure_max_width (t : Table) (a : Option Int) :
    (ensure_current_cell_visible t a).max_width = t.max_width := by
  unfold ensure_current_cell_visible; simp

@[simp] theorem ensure_column_widths (t : Table) (a : Option Int) :
    (ensure_current_cell_visible t a).column_widths = t.column_widths := by
  unfold ensure_current_cell_visible; simp

@[simp] theorem ensure_column_types (t : Table) (a : Option Int) :
    (ensure_current_cell_visible t a).column_types = t.column_types := by
  unfold ensure_current_cell_visible; simp

@[simp] theorem ensure_editing (t : Table) (a : Option Int) :
    (ensure_current_cell_visible t a).editing = t.editing := by
  unfold ensure_current_cell_visible; simp

@[simp] theorem ensure_dropdown_options (t : Table) (a : Option Int) :
    (ensure_current_cell_visible t a).dropdown_options = t.dropdown_options := by
  unfold ensure_current_cell_visible; simp

theorem ensure_vertical_offset (t : Table) (a : Option Int) :
    (ensure_current_cell_visible t a).vertical_offset =
      (if t.current_row < t.vertical_offset then t.current_row
       else if t.vertical_offset + (t.max_height - 1) ≤ t.current_row then
         max 0 (t.current_row - (t.max_height - 1) + 1)
       else t.vertical_offset) := by
  unfold ensure_current_cell_visible
  rw [fix_horizontal_vertical_offset, ensure_vertical_vertical_offset]

@[simp] theorem update_display_current_row (t : Table) (a : Option Int) :
    (update_display t a).current_row = t.current_row := by unfold update_display; simp

@[simp] theorem update_display_current_col (t : Table) (a : Option Int) :
    (update_display t a).current_col = t.current_col := by unfold update_display; simp

@[simp] theorem update_display_data (t : Table) (a : Option Int) :
    (update_display t a).data = t.data := by unfold update_display; simp

@[simp] theorem update_display_headers (t : Table) (a : Option Int) :
    (update_display t a).headers = t.headers := by unfold update_display; simp

@[simp] theorem update_display_max_height (t : Table) (a : Option Int) :
    (update_display t a).max_height = t.max_height := by unfold update_display; simp

@[simp] theorem update_display_max_width (t : Table) (a : Option Int) :
    (update_display t a).max_width = t.max_width := by unfold update_display; simp

@[simp] theorem update_display_column_widths (t : Table) (a : Option Int) :
    (update_display t a).column_widths = t.column_widths := by unfold update_display; simp

@[simp] theorem update_display_column_types (t : Table) (a : Option Int) :
    (update_display t a).column_types = t.column_types := by unfold update_display; simp

@[simp] theorem update_display_editing (t : Table) (a : Option Int) :
    (update_display t a).editing = t.editing := by unfold update_display; simp

@[simp] theorem update_display_popup_open (t : Table) (a : Option Int) :
    (update_display t a).popup_open = false := by unfold update_display; simp

@[simp] theorem update_display_dropdown_options (t : Table) (a : Option Int) :
    (update_display t a).dropdown_options = t.dropdown_options := by unfold update_display; simp

theorem update_display_vertical_offset (t : Table) (a : Option Int) :
    (update_display t a).vertical_offset =
      (ensure_current_cell_visible t a).vertical_offset := by unfold update_display; simp

theorem update_display_horizontal_offset (t : Table) (a : Option Int) :
    (update_display t a).horizontal_offset =
      (ensure_current_cell_visible t a).horizontal_offset := by unfold update_display; simp

/-! Claim C5: column widths. -/

/-- The maximum cell length in column `c`, taken over the rows having an
element at index `c` (0 when there is none). -/
def col_max_len (data : List (List PyStr)) (c : Nat) : Nat :=
  ((data.filterMap (fun r => r[c]?)).map List.length).foldr max 0

theorem widths_foldl_eq (c : Nat) (data : List (List PyStr)) :
    ∀ b : Nat,
      data.foldl (fun m row => if c < row.length then max m (row.getD c []).length else m) b
        = max b (col_max_len data c) := by
  induction data with
  | nil => intro b; simp [col_max_len]
  | cons r d ih =>
    intro b
    by_cases h : c < r.length
    · have hg : r[c]? = some r[c] := List.getElem?_eq_getElem h
      have hd : r.getD c [] = r[c] := by
        simp [List.getD_eq_getElem?_getD, hg]
      simp only [List.foldl_cons, if_pos h, hd, ih, col_max_len, List.filterMap_cons, hg,
        List.map_cons, List.foldr_cons]
      exact max_assoc b _ _
    · have hg : r[c]? = none := by
        rw [List.getElem?_eq_none]
        omega
      simp only [List.foldl_cons, if_neg h, ih, col_max_len, List.filterMap_cons, hg]

/-- C5: `_calculate_column_widths` returns one width per header; the width
of column `c` is the maximum of the header length and the lengths of the
cells present at index `c` (rows shorter than `c + 1` are ignored). -/
theorem c5_calculate_column_widths (headers : List PyStr) (data : List (List PyStr)) :
    (calculate_column_widths headers data).length = headers.length ∧
    ∀ c : Nat, c < headers.length →
      (calculate_column_widths headers data).getD c 0
        = max (headers.getD c []).length (col_max_len data c) := by
  constructor
  · simp [calculate_column_widths]
  · intro c hc
    unfold calculate_column_widths
    have : ((List.range headers.length).map (fun c =>
        data.foldl (fun m row => if c < row.length then max m (row.getD c []).length else m)
          (headers.getD c []).length))[c]?
        = some (data.foldl
            (fun m row => if c < row.length then max m (row.getD c []).length else m)
            (headers.getD c []).length) := by
      rw [List.getElem?_map, List.getElem?_range hc]
      rfl
    rw [List.getD_eq_getElem?_getD, this]
    exact widths_foldl_eq c data _

/-- Concrete headers used by the evaluation witnesses. -/
def sampleHeaders : List PyStr := ["Name".toList, "Age".toList]

/-- Concrete data used by the evaluation witnesses. -/
def sampleData : List (List PyStr) :=
  [["Alice".toList, "25".toList], ["Bob".toList, "30".toList], ["Charlie".toList]]

theorem c5_calculate_column_widths_witness :
    (calculate_column_widths sampleHeaders sampleData).length = sampleHeaders.length ∧
    (calculate_column_widths sampleHeaders sampleData).getD 1 0
      = max ((sampleHeaders.getD 1 []).length) (col_max_len sampleData 1) :=
  ⟨(c5_calculate_column_widths sampleHeaders sampleData).1,
    (c5_calculate_column_widths sampleHeaders sampleData).2 1 (by decide)⟩

/-! Claim C6: the text of a displayed non-dropdown cell. -/

theorem ljust_take_length (s : PyStr) (w : Nat) : (ljust (s.take w) (w + 2)).length = w + 2 := by
  simp only [ljust, List.length_append, List.length_replicate, List.length_take]
  omega

/-- C6: in a non-editing row, a non-dropdown cell is rendered as the cell
string truncated to the column width and left-justified to width + 2, so it
always occupies exactly `column_widths[c] + 2` characters; a column index
beyond the row's length yields exactly that many spaces. -/
theorem c6_text_cell (t : Table) (row_idx : Int) (row : List PyStr) (c : Int)
    (hnd : t.column_types c ≠ typeDropdown) :
    (c < (row.length : Int) →
      create_cell_part t row_idx row c =
        RowPart.text
          (ljust ((pyGet row c []).take (pyGet t.column_widths c 0))
            (pyGet t.column_widths c 0 + 2))
          (row_idx == t.current_row && c == t.current_col) ∧
      (ljust ((pyGet row c []).take (pyGet t.column_widths c 0))
          (pyGet t.column_widths c 0 + 2)).length = pyGet t.column_widths c 0 + 2) ∧
    (¬ c < (row.length : Int) →
      create_cell_part t row_idx row c =
        RowPart.text (List.replicate (pyGet t.column_widths c 0 + 2) ' ') false ∧
      (List.replicate (pyGet t.column_widths c 0 + 2) ' ').length
        = pyGet t.column_widths c 0 + 2) := by
  constructor
  · intro hin
    refine ⟨?_, ljust_take_length _ _⟩
    unfold create_cell_part
    rw [if_pos hin, if_neg hnd]
  · intro hout
    refine ⟨?_, List.length_replicate _ _⟩
    unfold create_cell_part
    rw [if_neg hout]

/-- Concrete table used by the evaluation witnesses: two text columns and
one more header than the rows have cells. -/
def sampleTable : Table :=
  mkTable ("City".toList :: sampleHeaders) sampleData 30 4
    (process_column_types none) (fun _ => none)

theorem c6_text_cell_witness :
    ((0 : Int) < (((sampleData.getD 0 []).length : Int)) →
      create_cell_part sampleTable 0 (sampleData.getD 0 []) 0 =
        RowPart.text
          (ljust ((pyGet (sampleData.getD 0 []) 0 []).take (pyGet sampleTable.column_widths 0 0))
            (pyGet sampleTable.column_widths 0 0 + 2))
          ((0 : Int) == sampleTable.current_row && (0 : Int) == sampleTable.current_col) ∧
      (ljust ((pyGet (sampleData.getD 0 []) 0 []).take (pyGet sampleTable.column_widths 0 0))
          (pyGet sampleTable.column_widths 0 0 + 2)).length
        = pyGet sampleTable.column_widths 0 0 + 2) ∧
    (¬ (0 : Int) < (((sampleData.getD 0 []).length : Int)) →
      create_cell_part sampleTable 0 (sampleData.getD 0 []) 0 =
        RowPart.text (List.replicate (pyGet sampleTable.column_widths 0 0 + 2) ' ') false ∧
      (List.replicate (pyGet sampleTable.column_widths 0 0 + 2) ' ').length
        = pyGet sampleTable.column_widths 0 0 + 2) :=
  c6_text_cell sampleTable 0 (sampleData.getD 0 []) 0 (by decide)

/-! Claim C7: the widgets built by `_create_table_widgets`. -/

theorem create_table_widgets_eq (t : Table) :
    create_table_widgets t =
      (List.range
          (min (t.max_height - 1) ((t.data.length : Int) - t.vertical_offset)).toNat).map
        (fun (i : Nat) =>
          build_row_widget t
            (get_visible_columns t (if t.max_width = 0 then 80 else t.max_width))
            (t.vertical_offset + (i : Int)) (pyGet t.data (t.vertical_offset + (i : Int)) [])) := by
  unfold create_table_widgets
  have key : ∀ n : Nat, (n : Int) ≤ max 0 ((t.data.length : Int) - t.vertical_offset) →
      ∀ acc : List RowWidget,
        (List.range n).foldl
          (fun (acc : List RowWidget) (i : Nat) =>
            if t.vertical_offset + (i : Int) < (t.data.length : Int) then
              acc ++ [build_row_widget t
                (get_visible_columns t (if t.max_width = 0 then 80 else t.max_width))
                (t.vertical_offset + (i : Int)) (pyGet t.data (t.vertical_offset + (i : Int)) [])]
            else acc) acc
        = acc ++ (List.range n).map
            (fun (i : Nat) => build_row_widget t
              (get_visible_columns t (if t.max_width = 0 then 80 else t.max_width))
              (t.vertical_offset + (i : Int))
              (pyGet t.data (t.vertical_offset + (i : Int)) [])) := by
    intro n
    induction n with
    | zero => intro _ acc; simp
    | succ m ih =>
      intro hn acc
      rw [List.range_succ, List.foldl_append, List.map_append, ih (by omega) acc]
      have hg : t.vertical_offset + (m : Int) < (t.data.length : Int) := by omega
      simp only [List.foldl_cons, List.foldl_nil, List.map_cons, List.map_nil, if_pos hg,
        List.append_assoc]
  refine key _ ?_ []
  have h1 := Int.ofNat_toNat (min (t.max_height - 1) ((t.data.length : Int) - t.vertical_offset))
  omega

/-- C7: after `_create_table_widgets`, the number of data-row widgets is
`max 0 (min (max_height - 1) (len data - vertical_offset))`, and the `i`-th
widget is built from the data row at index `vertical_offset + i`. -/
theorem c7_create_table_widgets (t : Table) :
    ((create_table_widgets t).length : Int)
        = max 0 (min (t.max_height - 1) ((t.data.length : Int) - t.vertical_offset)) ∧
    (0 ≤ t.vertical_offset →
      ∀ i : Nat, i < (create_table_widgets t).length →
        (create_table_widgets t).getD i (RowWidget.textRow [])
          = build_row_widget t
              (get_visible_columns t (if t.max_width = 0 then 80 else t.max_width))
              (t.vertical_offset + (i : Int))
              (t.data.getD (t.vertical_offset.toNat + i) [])) := by
  constructor
  · rw [create_table_widgets_eq]
    simp only [List.length_map, List.length_range]
    have := Int.ofNat_toNat (min (t.max_height - 1) ((t.data.length : Int) - t.vertical_offset))
    omega
  · intro hv i hi
    rw [create_table_widgets_eq] at hi ⊢
    simp only [List.length_map, List.length_range] at hi
    rw [List.getD_eq_getElem?_getD, List.getElem?_map, List.getElem?_range hi]
    have hres : pyGet t.data (t.vertical_offset + (i : Int)) []
        = t.data.getD (t.vertical_offset.toNat + i) [] := by
      rw [pyGet, if_pos (by omega)]
      congr 1
      omega
    simp [hres]

theorem c7_create_table_widgets_witness :
    ((create_table_widgets sampleTable).length : Int)
        = max 0 (min (sampleTable.max_height - 1)
            ((sampleTable.data.length : Int) - sampleTable.vertical_offset)) ∧
    (create_table_widgets sampleTable).getD 1 (RowWidget.textRow [])
      = build_row_widget sampleTable
          (get_visible_columns sampleTable
            (if sampleTable.max_width = 0 then 80 else sampleTable.max_width))
          (sampleTable.vertical_offset + (1 : Nat))
          (sampleTable.data.getD (sampleTable.vertical_offset.toNat + 1) []) :=
  ⟨(c7_create_table_widgets sampleTable).1,
    (c7_create_table_widgets sampleTable).2 (by decide) 1 (by decide)⟩

/-! Claim C9: `'esc'` in editing mode. -/

/-- C9: in editing mode, `'esc'` is consumed, clears `editing`, and leaves
the data, headers, cursor and cell values unchanged; `vertical_offset` only
undergoes the ensure-visible readjustment of the display update. -/
theorem c9_esc_cancels_editing (env : Env) (t : Table) (he : t.editing = true) :
    (keypress env t ("esc".toList)).2 = KeyRes.consumed ∧
    (keypress env t ("esc".toList)).1.editing = false ∧
    (keypress env t ("esc".toList)).1.data = t.data ∧
    (keypress env t ("esc".toList)).1.headers = t.headers ∧
    (keypress env t ("esc".toList)).1.current_row = t.current_row ∧
    (keypress env t ("esc".toList)).1.current_col = t.current_col ∧
    (keypress env t ("esc".toList)).1.vertical_offset
      = (ensure_current_cell_visible { t with editing := false } none).vertical_offset := by
  have hk : keypress env t ("esc".toList)
      = (update_display { t with editing := false } none, KeyRes.consumed) := by
    unfold keypress
    rw [he]
    simp
  rw [hk]
  refine ⟨rfl, ?_, ?_, ?_, ?_, ?_, ?_⟩ <;> simp [update_display_vertical_offset]

theorem c9_esc_cancels_editing_witness :
    (keypress ⟨none, none, false⟩ { sampleTable with editing := true } ("esc".toList)).2
        = KeyRes.consumed ∧
    (keypress ⟨none, none, false⟩ { sampleTable with editing := true } ("esc".toList)).1.editing
        = false ∧
    (keypress ⟨none, none, false⟩ { sampleTable with editing := true } ("esc".toList)).1.data
        = ({ sampleTable with editing := true } : Table).data ∧
    (keypress ⟨none, none, false⟩ { sampleTable with editing := true } ("esc".toList)).1.headers
        = ({ sampleTable with editing := true } : Table).headers ∧
    (keypress ⟨none, none, false⟩ { sampleTable with editing := true }
        ("esc".toList)).1.current_row
      = ({ sampleTable with editing := true } : Table).current_row ∧
    (keypress ⟨none, none, false⟩ { sampleTable with editing := true }
        ("esc".toList)).1.current_col
      = ({ sampleTable with editing := true } : Table).current_col ∧
    (keypress ⟨none, none, false⟩ { sampleTable with editing := true }
        ("esc".toList)).1.vertical_offset
      = (ensure_current_cell_visible
          { { sampleTable with editing := true } with editing := false } none).vertical_offset :=
  c9_esc_cancels_editing ⟨none, none, false⟩ { sampleTable with editing := true } rfl

/-! Claim C10: `_on_cell_change`. -/

/-- The cell of `t` at row `r`, column `c` (Python indexing). -/
def get_cell (t : Table) (r c : Int) : PyStr := pyGet (pyGet t.data r []) c []

theorem pyGet_of_nonneg {α : Type} (l : List α) (i : Int) (d : α) (h : 0 ≤ i) :
    pyGet l i d = l.getD i.toNat d := by
  unfold pyGet; rw [if_pos h]

theorem pySet_of_nonneg {α : Type} (l : List α) (i : Int) (v : α) (h : 0 ≤ i) :
    pySet l i v = l.set i.toNat v := by
  unfold pySet; rw [if_pos h]

theorem pySet_length {α : Type} (l : List α) (i : Int) (v : α) :
    (pySet l i v).length = l.length := by
  unfold pySet
  split
  · simp
  · split <;> simp

theorem getD_set_self {α : Type} (l : List α) (n : Nat) (v d : α) (h : n < l.length) :
    (l.set n v).getD n d = v := by
  rw [List.getD_eq_getElem?_getD, List.getElem?_set_eq_of_lt v h]
  rfl

theorem getD_set_ne {α : Type} (l : List α) (m n : Nat) (v d : α) (h : m ≠ n) :
    (l.set m v).getD n d = l.getD n d := by
  rw [List.getD_eq_getElem?_getD, List.getElem?_set_ne h, ← List.getD_eq_getElem?_getD]

/-- C10: `_on_cell_change (row, col, v)` writes `v` into the cell and
clears `editing` when both indices are in range (everything else in the
grid is untouched), and does nothing at all otherwise: an out-of-range
commit modifies no cell and leaves the widget in editing mode. -/
theorem c10_on_cell_change (t : Table) (row col : Int) (v : PyStr)
    (h1 : 0 ≤ row) (h2 : 0 ≤ col) :
    ((row < (t.data.length : Int) ∧ col < ((pyGet t.data row []).length : Int)) →
      (on_cell_change t row col v).editing = false ∧
      get_cell (on_cell_change t row col v) row col = v ∧
      (∀ r c : Int, 0 ≤ r → 0 ≤ c → ¬(r = row ∧ c = col) →
        get_cell (on_cell_change t row col v) r c = get_cell t r c) ∧
      (on_cell_change t row col v).data.length = t.data.length) ∧
    (¬(row < (t.data.length : Int) ∧ col < ((pyGet t.data row []).length : Int)) →
      on_cell_change t row col v = t) := by
  constructor
  · intro hin
    have hoc : on_cell_change t row col v
        = update_display
            { t with data := pySet t.data row (pySet (pyGet t.data row []) col v),
                     editing := false } none := by
      unfold on_cell_change
      rw [if_pos hin]
    have hrow : row.toNat < t.data.length := by omega
    have hcol : col.toNat < (pyGet t.data row []).length := by omega
    have hdata : (on_cell_change t row col v).data
        = t.data.set row.toNat ((pyGet t.data row []).set col.toNat v) := by
      rw [hoc, update_display_data, pySet_of_nonneg _ _ _ h1, pySet_of_nonneg _ _ _ h2]
    refine ⟨by rw [hoc]; simp, ?_, ?_, ?_⟩
    · unfold get_cell
      rw [hdata, pyGet_of_nonneg _ _ _ h1, getD_set_self _ _ _ _ hrow,
        pyGet_of_nonneg _ _ _ h2, getD_set_self _ _ _ _ hcol]
    · intro r c hr hc hne
      unfold get_cell
      rw [hdata, pyGet_of_nonneg _ r _ hr, pyGet_of_nonneg t.data r _ hr]
      by_cases hrr : r.toNat = row.toNat
      · have hreq : r = row := by omega
        have hcc : c ≠ col := by
          intro hcc
          exact hne ⟨hreq, hcc⟩
        rw [hrr, getD_set_self _ _ _ _ hrow, ← pyGet_of_nonneg t.data row _ h1,
          pyGet_of_nonneg _ c _ hc, pyGet_of_nonneg _ c _ hc, getD_set_ne]
        omega
      · rw [getD_set_ne _ _ _ _ _ (by omega)]
    · rw [hdata]
      simp
  · intro hout
    unfold on_cell_change
    rw [if_neg hout]

theorem c10_on_cell_change_witness :
    (((0 : Int) < (sampleTable.data.length : Int) ∧
        (1 : Int) < ((pyGet sampleTable.data 0 []).length : Int)) →
      (on_cell_change sampleTable 0 1 ("99".toList)).editing = false ∧
      get_cell (on_cell_change sampleTable 0 1 ("99".toList)) 0 1 = "99".toList ∧
      (∀ r c : Int, 0 ≤ r → 0 ≤ c → ¬(r = 0 ∧ c = 1) →
        get_cell (on_cell_change sampleTable 0 1 ("99".toList)) r c = get_cell sampleTable r c) ∧
      (on_cell_change sampleTable 0 1 ("99".toList)).data.length = sampleTable.data.length) ∧
    (¬((0 : Int) < (sampleTable.data.length : Int) ∧
        (1 : Int) < ((pyGet sampleTable.data 0 []).length : Int)) →
      on_cell_change sampleTable 0 1 ("99".toList) = sampleTable) :=
  c10_on_cell_change sampleTable 0 1 ("99".toList) (by decide) (by decide)

/-! Claims C2 and C8: keypress handling in navigation mode. -/

theorem keypress_nav (env : Env) (t : Table) (key : PyStr)
    (he : t.editing = false) (hp : t.popup_open = false) :
    keypress env t key = navigation_keypress t key := by
  unfold keypress
  simp [he, hp]

/-- C2: in navigation mode the arrow keys move the cursor by one within
bounds, do nothing at a boundary, and are always consumed. -/
theorem c2_arrow_keys (env : Env) (t : Table)
    (he : t.editing = false) (hp : t.popup_open = false) :
    ((0 < t.current_row →
        (keypress env t ("up".toList)).1.current_row = t.current_row - 1) ∧
      (t.current_row = 0 → (keypress env t ("up".toList)).1.current_row = t.current_row) ∧
      (keypress env t ("up".toList)).2 = KeyRes.consumed) ∧
    ((t.current_row < (t.data.length : Int) - 1 →
        (keypress env t ("down".toList)).1.current_row = t.current_row + 1) ∧
      (¬ t.current_row < (t.data.length : Int) - 1 →
        (keypress env t ("down".toList)).1.current_row = t.current_row) ∧
      (keypress env t ("down".toList)).2 = KeyRes.consumed) ∧
    ((0 < t.current_col →
        (keypress env t ("left".toList)).1.current_col = t.current_col - 1) ∧
      (¬ 0 < t.current_col →
        (keypress env t ("left".toList)).1.current_col = t.current_col) ∧
      (keypress env t ("left".toList)).2 = KeyRes.consumed) ∧
    ((t.current_col < (t.headers.length : Int) - 1 →
        (keypress env t ("right".toList)).1.current_col = t.current_col + 1) ∧
      (¬ t.current_col < (t.headers.length : Int) - 1 →
        (keypress env t ("right".toList)).1.current_col = t.current_col) ∧
      (keypress env t ("right".toList)).2 = KeyRes.consumed) := by
  have hup : navigation_keypress t ("up".toList)
      = ((if 0 < t.current_row then
            update_display
              (ensure_current_cell_visible { t with current_row := t.current_row - 1 } none) none
          else t), KeyRes.consumed) := by
    unfold navigation_keypress
    rw [if_neg (by decide : ¬ ("up".toList = "enter".toList)), if_pos rfl]
  have hdown : navigation_keypress t ("down".toList)
      = ((if t.current_row < (t.data.length : Int) - 1 then
            update_display
              (ensure_current_cell_visible { t with current_row := t.current_row + 1 } none) none
          else t), KeyRes.consumed) := by
    unfold navigation_keypress
    rw [if_neg (by decide : ¬ ("down".toList = "enter".toList)),
      if_neg (by decide : ¬ ("down".toList = "up".toList)), if_pos rfl]
  have hleft : navigation_keypress t ("left".toList)
      = ((if 0 < t.current_col then
            update_display
              (ensure_current_cell_visible { t with current_col := t.current_col - 1 } none) none
          else t), KeyRes.consumed) := by
    unfold navigation_keypress
    rw [if_neg (by decide : ¬ ("left".toList = "enter".toList)),
      if_neg (by decide : ¬ ("left".toList = "up".toList)),
      if_neg (by decide : ¬ ("left".toList = "down".toList)), if_pos rfl]
  have hright : navigation_keypress t ("right".toList)
      = ((if t.current_col < (t.headers.length : Int) - 1 then
            update_display
              (ensure_current_cell_visible { t with current_col := t.current_col + 1 } none) none
          else t), KeyRes.consumed) := by
    unfold navigation_keypress
    rw [if_neg (by decide : ¬ ("right".toList = "enter".toList)),
      if_neg (by decide : ¬ ("right".toList = "up".toList)),
      if_neg (by decide : ¬ ("right".toList = "down".toList)),
      if_neg (by decide : ¬ ("right".toList = "left".toList)), if_pos rfl]
  rw [keypress_nav env t _ he hp, keypress_nav env t _ he hp, keypress_nav env t _ he hp,
    keypress_nav env t _ he hp, hup, hdown, hleft, hright]
  refine ⟨⟨?_, ?_, rfl⟩, ⟨?_, ?_, rfl⟩, ⟨?_, ?_, rfl⟩, ⟨?_, ?_, rfl⟩⟩
  · intro h; rw [if_pos h]; simp
  · intro h; rw [if_neg (by omega)]
  · intro h; rw [if_pos h]; simp
  · intro h; rw [if_neg h]
  · intro h; rw [if_pos h]; simp
  · intro h; rw [if_neg h]
  · intro h; rw [if_pos h]; simp
  · intro h; rw [if_neg h]

theorem c2_arrow_keys_witness :
    ((0 < sampleTable.current_row →
        (keypress ⟨none, none, false⟩ sampleTable ("up".toList)).1.current_row
          = sampleTable.current_row - 1) ∧
      (sampleTable.current_row = 0 →
        (keypress ⟨none, none, false⟩ sampleTable ("up".toList)).1.current_row
          = sampleTable.current_row) ∧
      (keypress ⟨none, none, false⟩ sampleTable ("up".toList)).2 = KeyRes.consumed) ∧
    ((sampleTable.current_row < (sampleTable.data.length : Int) - 1 →
        (keypress ⟨none, none, false⟩ sampleTable ("down".toList)).1.current_row
          = sampleTable.current_row + 1) ∧
      (¬ sampleTable.current_row < (sampleTable.data.length : Int) - 1 →
        (keypress ⟨none, none, false⟩ sampleTable ("down".toList)).1.current_row
          = sampleTable.current_row) ∧
      (keypress ⟨none, none, false⟩ sampleTable ("down".toList)).2 = KeyRes.consumed) ∧
    ((0 < sampleTable.current_col →
        (keypress ⟨none, none, false⟩ sampleTable ("left".toList)).1.current_col
          = sampleTable.current_col - 1) ∧
      (¬ 0 < sampleTable.current_col →
        (keypress ⟨none, none, false⟩ sampleTable ("left".toList)).1.current_col
          = sampleTable.current_col) ∧
      (keypress ⟨none, none, false⟩ sampleTable ("left".toList)).2 = KeyRes.consumed) ∧
    ((sampleTable.current_col < (sampleTable.headers.length : Int) - 1 →
        (keypress ⟨none, none, false⟩ sampleTable ("right".toList)).1.current_col
          = sampleTable.current_col + 1) ∧
      (¬ sampleTable.current_col < (sampleTable.headers.length : Int) - 1 →
        (keypress ⟨none, none, false⟩ sampleTable ("right".toList)).1.current_col
          = sampleTable.current_col) ∧
      (keypress ⟨none, none, false⟩ sampleTable ("right".toList)).2 = KeyRes.consumed) :=
  c2_arrow_keys ⟨none, none, false⟩ sampleTable rfl rfl

/-- C8: in navigation mode with no popup open, `'enter'` never enters
editing mode on a `'dropdown'` column (it opens the popup instead, when the
current cell has a dropdown widget) nor on a `'text'` column; it enters
editing mode exactly when the column type is neither `'text'` nor
`'dropdown'` and the cursor points at an existing cell. -/
theorem c8_enter_starts_editing (env : Env) (t : Table)
    (he : t.editing = false) (hp : t.popup_open = false) :
    ((keypress env t ("enter".toList)).1.editing = true ↔
      (t.column_types t.current_col ≠ typeDropdown ∧
        t.column_types t.current_col ≠ typeText ∧
        t.current_row < (t.data.length : Int) ∧
        t.current_col < ((pyGet t.data t.current_row []).length : Int))) ∧
    (t.column_types t.current_col = typeDropdown →
      (keypress env t ("enter".toList)).1.editing = false ∧
      (keypress env t ("enter".toList)).1.popup_open = has_current_dropdown_widget t) ∧
    (t.column_types t.current_col = typeText →
      (keypress env t ("enter".toList)).1.editing = false) := by
  rw [keypress_nav env t _ he hp]
  have henter : navigation_keypress t ("enter".toList)
      = (if t.column_types t.current_col = typeDropdown then
          (trigger_dropdown_popup t, KeyRes.consumed)
         else (start_editing_current_cell t, KeyRes.consumed)) := by
    unfold navigation_keypress
    rw [if_pos rfl]
  rw [henter]
  by_cases hd : t.column_types t.current_col = typeDropdown
  · rw [if_pos hd]
    have htr : (trigger_dropdown_popup t).editing = false ∧
        (trigger_dropdown_popup t).popup_open = has_current_dropdown_widget t := by
      unfold trigger_dropdown_popup
      by_cases hw : has_current_dropdown_widget t = true
      · rw [if_pos hw, hw]
        exact ⟨he, rfl⟩
      · rw [if_neg hw]
        simp only [Bool.not_eq_true] at hw
        rw [hw]
        exact ⟨he, hp⟩
    refine ⟨?_, fun _ => htr, fun ht => htr.1⟩
    rw [htr.1]
    simp [hd]
  · rw [if_neg hd]
    unfold start_editing_current_cell
    constructor
    · by_cases g1 : (t.data.length : Int) ≤ t.current_row
      · rw [if_pos g1, he]
        constructor
        · intro hfalse; cases hfalse
        · intro ⟨_, _, h3, _⟩; omega
      · rw [if_neg g1]
        by_cases g2 : ((pyGet t.data t.current_row []).length : Int) ≤ t.current_col
        · rw [if_pos g2, he]
          constructor
          · intro hfalse; cases hfalse
          · intro ⟨_, _, _, h4⟩; omega
        · rw [if_neg g2]
          by_cases g3 : t.column_types t.current_col = typeText
          · rw [if_pos g3, he]
            constructor
            · intro hfalse; cases hfalse
            · intro ⟨_, h2, _⟩; exact absurd g3 h2
          · rw [if_neg g3]
            simp only [update_display_editing]
            constructor
            · intro _
              exact ⟨hd, g3, by omega, by omega⟩
            · intro _; trivial
    · refine ⟨fun hdd => absurd hdd hd, fun ht => ?_⟩
      by_cases g1 : (t.data.length : Int) ≤ t.current_row
      · rw [if_pos g1]; exact he
      · rw [if_neg g1]
        by_cases g2 : ((pyGet t.data t.current_row []).length : Int) ≤ t.current_col
        · rw [if_pos g2]; exact he
        · rw [if_neg g2, if_pos ht]; exact he

/-- Concrete table with an editable first column, used by the C8 witness. -/
def sampleEditableTable : Table :=
  mkTable sampleHeaders sampleData 30 4
    (process_column_types (some [typeEditable, typeText])) (fun _ => none)

theorem c8_enter_starts_editing_witness :
    ((keypress ⟨none, none, false⟩ sampleEditableTable ("enter".toList)).1.editing = true ↔
      (sampleEditableTable.column_types sampleEditableTable.current_col ≠ typeDropdown ∧
        sampleEditableTable.column_types sampleEditableTable.current_col ≠ typeText ∧
        sampleEditableTable.current_row < (sampleEditableTable.data.length : Int) ∧
        sampleEditableTable.current_col <
          ((pyGet sampleEditableTable.data sampleEditableTable.current_row []).length : Int))) ∧
    (sampleEditableTable.column_types sampleEditableTable.current_col = typeDropdown →
      (keypress ⟨none, none, false⟩ sampleEditableTable ("enter".toList)).1.editing = false ∧
      (keypress ⟨none, none, false⟩ sampleEditableTable ("enter".toList)).1.popup_open
        = has_current_dropdown_widget sampleEditableTable) ∧
    (sampleEditableTable.column_types sampleEditableTable.current_col = typeText →
      (keypress ⟨none, none, false⟩ sampleEditableTable ("enter".toList)).1.editing = false) :=
  c8_enter_starts_editing ⟨none, none, false⟩ sampleEditableTable rfl rfl

/-! Claim C1: the current cell becomes visible.  Support lemmas about
`intRange`, the widths of column segments, and the two column scans. -/

theorem intRange_eq_nil {a b : Int} (h : b ≤ a) : intRange a b = [] := by
  unfold intRange
  have h0 : (b - a).toNat = 0 := by omega
  rw [h0]
  rfl

theorem intRange_eq_cons {a b : Int} (h : a < b) : intRange a b = a :: intRange (a + 1) b := by
  unfold intRange
  have h1 : (b - a).toNat = (b - (a + 1)).toNat + 1 := by omega
  rw [h1, List.range_succ_eq_map, List.map_cons, List.map_map]
  refine List.cons_eq_cons.mpr ⟨by simp, ?_⟩
  apply List.map_congr_left
  intro n _
  simp only [Function.comp_apply]
  push_cast
  ring

theorem intRange_append {a c b : Int} (h1 : a ≤ c) (h2 : c ≤ b) :
    intRange a b = intRange a c ++ intRange c b := by
  unfold intRange
  have h3 : (b - a).toNat = (c - a).toNat + (b - c).toNat := by omega
  rw [h3, List.range_add, List.map_append, List.map_map]
  congr 1
  apply List.map_congr_left
  intro n _
  simp only [Function.comp_apply]
  have : a + ((c - a).toNat : Int) = c := by omega
  push_cast
  omega

/-- The total width (`column width + 2` per column) of the columns
`j, j+1, ..., m`. -/
def seg_sum (widths : List Nat) (j m : Int) : Int :=
  ((intRange j (m + 1)).map (fun i => ((pyGet widths i 0 : Nat) : Int) + 2)).sum

theorem seg_sum_empty (widths : List Nat) (m : Int) : seg_sum widths (m + 1) m = 0 := by
  unfold seg_sum
  rw [intRange_eq_nil (le_refl (m + 1))]
  rfl

theorem seg_sum_front (widths : List Nat) {j m : Int} (h : j ≤ m) :
    seg_sum widths j m = (((pyGet widths j 0 : Nat) : Int) + 2) + seg_sum widths (j + 1) m := by
  unfold seg_sum
  rw [intRange_eq_cons (by omega : j < m + 1), List.map_cons, List.sum_cons]

theorem seg_sum_last (widths : List Nat) {j m : Int} (h : j ≤ m) :
    seg_sum widths j m
      = ((intRange j m).map (fun i => ((pyGet widths i 0 : Nat) : Int) + 2)).sum
        + (((pyGet widths m 0 : Nat) : Int) + 2) := by
  unfold seg_sum
  rw [intRange_append h (by omega : m ≤ m + 1), intRange_eq_cons (by omega : m < m + 1),
    intRange_eq_nil (le_refl (m + 1))]
  simp

/-- If the widths of a prefix `pre ++ [c]` of the scanned columns fit in
the remaining space, the forward scan of `_get_visible_columns` reaches and
keeps `c`. -/
theorem visible_go_mem (widths : List Nat) (aw : Int) (c : Int) :
    ∀ (pre post : List Int) (cur : Int),
      cur + ((pre.map (fun i => ((pyGet widths i 0 : Nat) : Int) + 2)).sum
        + (((pyGet widths c 0 : Nat) : Int) + 2)) ≤ aw →
      c ∈ visible_cols_go widths (pre ++ c :: post) aw cur := by
  intro pre
  induction pre with
  | nil =>
    intro post cur h
    simp only [List.map_nil, List.sum_nil, zero_add] at h
    simp only [List.nil_append, visible_cols_go]
    rw [if_pos h]
    exact List.mem_cons_self _ _
  | cons p ps ih =>
    intro post cur h
    simp only [List.map_cons, List.sum_cons] at h
    have hsum : (0 : Int) ≤ (ps.map (fun i => ((pyGet widths i 0 : Nat) : Int) + 2)).sum := by
      apply List.sum_nonneg
      intro x hx
      obtain ⟨i, _, hi⟩ := List.mem_map.mp hx
      omega
    have hwc : (0 : Int) ≤ ((pyGet widths c 0 : Nat) : Int) + 2 := by positivity
    simp only [List.cons_append, visible_cols_go]
    rw [if_pos (by omega : cur + (((pyGet widths p 0 : Nat) : Int) + 2) ≤ aw)]
    exact List.mem_cons_of_mem _ (ih post _ (by omega))

theorem cols_to_show_go_ne_nil (widths : List Nat) (aw : Int) :
    ∀ (cols : List Int) (total : Int) (acc : List Int), acc ≠ [] →
      cols_to_show_go widths cols aw total acc ≠ [] := by
  intro cols
  induction cols with
  | nil => intro total acc h; simpa [cols_to_show_go] using h
  | cons c rest ih =>
    intro total acc h
    simp only [cols_to_show_go]
    split
    · exact ih _ _ (by simp)
    · exact h

/-- Soundness of the downward scan of `_ensure_current_cell_visible`: when
started at column `c ≤ cc` with the widths of columns `c+1 .. cc` already
accumulated, a nonempty result starts at a column `j` with
`0 ≤ j ≤ cc` whose segment up to `cc` fits in the available width. -/
theorem cols_down_spec (widths : List Nat) (aw cc : Int) :
    ∀ (c : Nat), (c : Int) ≤ cc →
    ∀ (acc : List Int),
      (acc = [] ∨
        (∃ tl, acc = ((c : Int) + 1) :: tl ∧ (c : Int) + 1 ≤ cc ∧
          seg_sum widths ((c : Int) + 1) cc ≤ aw)) →
    ∀ (j : Int) (rest : List Int),
      cols_to_show_go widths (downFrom c) aw (seg_sum widths ((c : Int) + 1) cc) acc
        = j :: rest →
      0 ≤ j ∧ j ≤ cc ∧ seg_sum widths j cc ≤ aw := by
  intro c
  induction c with
  | zero =>
    intro hc acc hacc j rest hres
    have hc0 : (0 : Int) ≤ cc := by exact_mod_cast hc
    have e1 : ((0 : Nat) : Int) + 1 = 1 := by norm_num
    rw [e1] at hres hacc
    rw [show downFrom 0 = [0] from rfl] at hres
    simp only [cols_to_show_go] at hres
    by_cases hf : seg_sum widths 1 cc + (((pyGet widths 0 0 : Nat) : Int) + 2) ≤ aw
    · rw [if_pos hf] at hres
      obtain ⟨hj, -⟩ := List.cons_eq_cons.mp hres.symm
      refine ⟨by omega, by omega, ?_⟩
      rw [hj, seg_sum_front widths hc0]
      have e2 : (0 : Int) + 1 = 1 := by norm_num
      rw [e2]
      omega
    · rw [if_neg hf] at hres
      rcases hacc with hnil | ⟨tl, heq, hle, hsum⟩
      · rw [hnil] at hres; cases hres
      · rw [heq] at hres
        obtain ⟨hj, -⟩ := List.cons_eq_cons.mp hres
        refine ⟨by omega, by omega, by rw [← hj]; exact hsum⟩
  | succ n ih =>
    intro hc acc hacc j rest hres
    have hcast : ((n + 1 : Nat) : Int) = (n : Int) + 1 := by push_cast; ring
    rw [hcast] at hc hres hacc
    rw [show downFrom (n + 1) = ((n : Int) + 1) :: downFrom n from rfl] at hres
    simp only [cols_to_show_go] at hres
    by_cases hf : seg_sum widths ((n : Int) + 1 + 1) cc
        + (((pyGet widths ((n : Int) + 1) 0 : Nat) : Int) + 2) ≤ aw
    · rw [if_pos hf] at hres
      have hstep : seg_sum widths ((n : Int) + 1 + 1) cc
          + (((pyGet widths ((n : Int) + 1) 0 : Nat) : Int) + 2)
          = seg_sum widths ((n : Int) + 1) cc := by
        rw [seg_sum_front widths (by omega : (n : Int) + 1 ≤ cc)]
        ring
      rw [hstep] at hres
      exact ih (by omega) (((n : Int) + 1) :: acc)
        (Or.inr ⟨acc, rfl, by omega, by omega⟩) j rest hres
    · rw [if_neg hf] at hres
      rcases hacc with hnil | ⟨tl, heq, hle, hsum⟩
      · rw [hnil] at hres; cases hres
      · rw [heq] at hres
        obtain ⟨hj, -⟩ := List.cons_eq_cons.mp hres
        refine ⟨by omega, by omega, by rw [← hj]; exact hsum⟩

/-- After the horizontal adjustment, a current column that itself fits in
the available width is among the visible columns. -/
theorem fix_horizontal_mem (t : Table) (aw : Int)
    (h4 : 0 ≤ t.current_col) (h5 : t.current_col < (t.headers.length : Int))
    (hfit : ((pyGet t.column_widths t.current_col 0 : Nat) : Int) + 2 ≤ aw) :
    t.current_col ∈ get_visible_columns (fix_horizontal t aw) aw := by
  unfold fix_horizontal
  by_cases hmem : t.current_col ∈ get_visible_columns t aw
  · rw [if_pos hmem]; exact hmem
  · rw [if_neg hmem]
    by_cases hlt : t.current_col < t.horizontal_offset
    · rw [if_pos hlt]
      show t.current_col ∈ visible_cols_go t.column_widths
        (intRange (max 0 t.current_col) t.headers.length) aw 0
      rw [show max 0 t.current_col = t.current_col by omega, intRange_eq_cons h5]
      have := visible_go_mem t.column_widths aw t.current_col []
        (intRange (t.current_col + 1) t.headers.length) 0 (by simpa using hfit)
      simpa using this
    · rw [if_neg hlt]
      have hcast : (t.current_col.toNat : Int) = t.current_col := Int.toNat_of_nonneg h4
      have hcons : ∃ tl, downFrom t.current_col.toNat = t.current_col :: tl := by
        cases hc : t.current_col.toNat with
        | zero =>
          refine ⟨[], ?_⟩
          rw [show downFrom 0 = [0] from rfl, ← hcast, hc]
          norm_num
        | succ m =>
          refine ⟨downFrom m, ?_⟩
          rw [show downFrom (m + 1) = ((m : Int) + 1) :: downFrom m from rfl]
          have hm : ((m : Int) + 1) = t.current_col := by
            rw [← hcast, hc]
            push_cast
            ring
          rw [hm]
      obtain ⟨tl, htl⟩ := hcons
      have hne : cols_to_show_go t.column_widths (downRange t.current_col) aw 0 [] ≠ [] := by
        rw [downRange, if_pos h4, htl]
        simp only [cols_to_show_go]
        rw [if_pos (by omega :
          (0 : Int) + (((pyGet t.column_widths t.current_col 0 : Nat) : Int) + 2) ≤ aw)]
        exact cols_to_show_go_ne_nil _ aw tl _ _ (by simp)
      obtain ⟨j, rest, hjr⟩ := List.exists_cons_of_ne_nil hne
      rw [hjr]
      have h0 : seg_sum t.column_widths ((t.current_col.toNat : Int) + 1) t.current_col = 0 := by
        rw [hcast]
        exact seg_sum_empty _ _
      have hres : cols_to_show_go t.column_widths (downFrom t.current_col.toNat) aw
          (seg_sum t.column_widths ((t.current_col.toNat : Int) + 1) t.current_col) []
          = j :: rest := by
        rw [h0]
        rw [downRange, if_pos h4] at hjr
        exact hjr
      obtain ⟨hj0, hjcc, hsum⟩ := cols_down_spec t.column_widths aw t.current_col
        t.current_col.toNat (by omega) [] (Or.inl rfl) j rest hres
      show t.current_col ∈ visible_cols_go t.column_widths (intRange j t.headers.length) aw 0
      rw [intRange_append hjcc (le_of_lt h5), intRange_eq_cons h5]
      apply visible_go_mem
      have hlast := seg_sum_last t.column_widths hjcc
      omega

/-- C1: for a state with `0 ≤ current_row < len data` and `max_height ≥ 2`,
after `_ensure_current_cell_visible w` the current row lies in the visible
vertical window, and whenever the current column itself fits
(`column_widths[current_col] + 2 ≤ w`) it is among
`_get_visible_columns w`. -/
theorem c1_ensure_current_cell_visible (t : Table) (w : Int)
    (h1 : 0 ≤ t.current_row) (h2 : t.current_row < (t.data.length : Int))
    (h3 : 2 ≤ t.max_height) :
    ((ensure_current_cell_visible t (some w)).vertical_offset ≤ t.current_row ∧
      t.current_row
        < (ensure_current_cell_visible t (some w)).vertical_offset + (t.max_height - 1)) ∧
    (0 ≤ t.current_col → t.current_col < (t.headers.length : Int) →
      ((pyGet t.column_widths t.current_col 0 : Nat) : Int) + 2 ≤ w →
      t.current_col ∈ get_visible_columns (ensure_current_cell_visible t (some w)) w) := by
  constructor
  · rw [ensure_vertical_offset]
    split_ifs with ha hb <;> omega
  · intro h4 h5 hfit
    show t.current_col ∈
      get_visible_columns (fix_horizontal (ensure_vertical t) (resolve_width t (some w))) w
    rw [show resolve_width t (some w) = w from rfl]
    have hmem := fix_horizontal_mem (ensure_vertical t) w (by simpa using h4)
      (by simpa using h5) (by simpa using hfit)
    simpa using hmem

theorem c1_ensure_current_cell_visible_witness :
    ((ensure_current_cell_visible sampleTable (some 10)).vertical_offset
        ≤ sampleTable.current_row ∧
      sampleTable.current_row
        < (ensure_current_cell_visible sampleTable (some 10)).vertical_offset
          + (sampleTable.max_height - 1)) ∧
    (0 ≤ sampleTable.current_col → sampleTable.current_col < (sampleTable.headers.length : Int) →
      ((pyGet sampleTable.column_widths sampleTable.current_col 0 : Nat) : Int) + 2 ≤ 10 →
      sampleTable.current_col
        ∈ get_visible_columns (ensure_current_cell_visible sampleTable (some 10)) 10) :=
  c1_ensure_current_cell_visible sampleTable 10 (by decide) (by decide) (by decide)

/-! Claim C4: the page keys.  `_ensure_current_cell_visible` is applied
once by the key handler and once more inside `_update_display`; on
well-formed states the second application is the identity, so the net
effect is the claimed assignment followed by one ensure-visible
adjustment. -/

theorem ensure_vertical_of_fixed (t : Table)
    (hc1 : ¬ t.current_row < t.vertical_offset)
    (hc2 : ¬ t.vertical_offset + (t.max_height - 1) ≤ t.current_row) :
    ensure_vertical t = t := by
  rw [ensure_vertical_eq, if_neg hc1, if_neg hc2]

theorem ensure_vertical_fixed (t : Table) (hmh : 2 ≤ t.max_height)
    (hv : 0 ≤ t.vertical_offset) :
    ¬ (ensure_vertical t).current_row < (ensure_vertical t).vertical_offset ∧
    ¬ (ensure_vertical t).vertical_offset + ((ensure_vertical t).max_height - 1)
        ≤ (ensure_vertical t).current_row := by
  rw [ensure_vertical_current_row, ensure_vertical_max_height, ensure_vertical_vertical_offset]
  split_ifs with ha hb <;> constructor <;> omega

/-- A column kept by the forward scan fits in the available width on its
own (the accumulated width is nonnegative). -/
theorem mem_visible_fits (widths : List Nat) (aw : Int) (c : Int) :
    ∀ (cols : List Int) (cur : Int), 0 ≤ cur →
      c ∈ visible_cols_go widths cols aw cur →
      ((pyGet widths c 0 : Nat) : Int) + 2 ≤ aw := by
  intro cols
  induction cols with
  | nil => intro cur _ hm; simp [visible_cols_go] at hm
  | cons d rest ih =>
    intro cur h0 hm
    simp only [visible_cols_go] at hm
    by_cases hcond : cur + (((pyGet widths d 0 : Nat) : Int) + 2) ≤ aw
    · rw [if_pos hcond] at hm
      rcases List.mem_cons.mp hm with he | hm'
      · rw [he]; omega
      · exact ih (cur + (((pyGet widths d 0 : Nat) : Int) + 2)) (by omega) hm'
    · rw [if_neg hcond] at hm
      cases hm

theorem downFrom_cons (c : Int) (h : 0 ≤ c) : ∃ tl, downFrom c.toNat = c :: tl := by
  have hcast : (c.toNat : Int) = c := Int.toNat_of_nonneg h
  cases hc : c.toNat with
  | zero =>
    refine ⟨[], ?_⟩
    rw [show downFrom 0 = [0] from rfl, ← hcast, hc]
    norm_num
  | succ m =>
    refine ⟨downFrom m, ?_⟩
    rw [show downFrom (m + 1) = ((m : Int) + 1) :: downFrom m from rfl]
    have hm : ((m : Int) + 1) = c := by
      rw [← hcast, hc]
      push_cast
      ring
    rw [hm]

theorem fix_horizontal_of_mem (t : Table) (aw : Int)
    (h : t.current_col ∈ get_visible_columns t aw) : fix_horizontal t aw = t := by
  unfold fix_horizontal
  rw [if_pos h]

theorem fix_horizontal_idem (t : Table) (aw : Int)
    (h4 : 0 ≤ t.current_col) (h5 : t.current_col < (t.headers.length : Int)) :
    fix_horizontal (fix_horizontal t aw) aw = fix_horizontal t aw := by
  by_cases hfit : ((pyGet t.column_widths t.current_col 0 : Nat) : Int) + 2 ≤ aw
  · have hmem := fix_horizontal_mem t aw h4 h5 hfit
    exact fix_horizontal_of_mem (fix_horizontal t aw) aw
      (by rw [fix_horizontal_current_col]; exact hmem)
  · have hnm : ∀ s : Table, s.column_widths = t.column_widths →
        s.current_col = t.current_col → s.current_col ∉ get_visible_columns s aw := by
      intro s hw hc hm
      unfold get_visible_columns at hm
      rw [hw, hc] at hm
      exact hfit (mem_visible_fits t.column_widths aw t.current_col _ 0 le_rfl hm)
    have hnm1 := hnm t rfl rfl
    by_cases hlt : t.current_col < t.horizontal_offset
    · have e : fix_horizontal t aw = { t with horizontal_offset := max 0 t.current_col } := by
        unfold fix_horizontal
        rw [if_neg hnm1, if_pos hlt]
      rw [e]
      have hnm2 := hnm { t with horizontal_offset := max 0 t.current_col } rfl rfl
      have hshows : cols_to_show_go t.column_widths (downRange t.current_col) aw 0 [] = [] := by
        obtain ⟨tl, htl⟩ := downFrom_cons t.current_col h4
        rw [downRange, if_pos h4, htl]
        simp only [cols_to_show_go]
        rw [if_neg (by omega)]
      unfold fix_horizontal
      rw [if_neg hnm2, if_neg (show ¬ ({ t with horizontal_offset := max 0 t.current_col
        } : Table).current_col < ({ t with horizontal_offset := max 0 t.current_col
        } : Table).horizontal_offset by dsimp only; omega)]
      dsimp only
      rw [hshows]
    · cases hsh : cols_to_show_go t.column_widths (downRange t.current_col) aw 0 [] with
      | nil =>
        have e : fix_horizontal t aw = t := by
          unfold fix_horizontal
          rw [if_neg hnm1, if_neg hlt, hsh]
        rw [e]
        exact e
      | cons j rest =>
        exfalso
        obtain ⟨tl, htl⟩ := downFrom_cons t.current_col h4
        rw [downRange, if_pos h4, htl] at hsh
        simp only [cols_to_show_go] at hsh
        rw [if_neg (by omega)] at hsh
        cases hsh

theorem ensure_idem (t : Table) (hmh : 2 ≤ t.max_height) (hv : 0 ≤ t.vertical_offset)
    (h4 : 0 ≤ t.current_col) (h5 : t.current_col < (t.headers.length : Int)) :
    ensure_current_cell_visible (ensure_current_cell_visible t none) none
      = ensure_current_cell_visible t none := by
  unfold ensure_current_cell_visible
  have hw : resolve_width (fix_horizontal (ensure_vertical t) (resolve_width t none)) none
      = resolve_width t none := by
    unfold resolve_width
    simp
  rw [hw]
  have hvert : ensure_vertical (fix_horizontal (ensure_vertical t) (resolve_width t none))
      = fix_horizontal (ensure_vertical t) (resolve_width t none) := by
    obtain ⟨hc1, hc2⟩ := ensure_vertical_fixed t hmh hv
    apply ensure_vertical_of_fixed
    · simpa using hc1
    · simpa using hc2
  rw [hvert]
  apply fix_horizontal_idem
  · simpa using h4
  · simpa using h5

theorem update_display_ensure (s : Table) (hmh : 2 ≤ s.max_height)
    (hv : 0 ≤ s.vertical_offset) (h4 : 0 ≤ s.current_col)
    (h5 : s.current_col < (s.headers.length : Int)) :
    update_display (ensure_current_cell_visible s none) none = update_display s none := by
  unfold update_display
  rw [ensure_idem s hmh hv h4 h5]

/-- C4: with `half_page = max 1 (max_height // 2)`, `'page up'` sets
`vertical_offset` to `max 0 (vertical_offset - half_page)` and
`current_row` to `max 0 (current_row - half_page)`, and `'page down'` sets
them to `min (max 0 (len data - (max_height - 1))) (vertical_offset +
half_page)` and `min (len data - 1) (current_row + half_page)`; each is
followed by the ensure-visible adjustment of the display update, and both
keys are consumed. -/
theorem c4_page_keys (env : Env) (t : Table)
    (he : t.editing = false) (hp : t.popup_open = false)
    (hmh : 2 ≤ t.max_height) (hv : 0 ≤ t.vertical_offset)
    (h4 : 0 ≤ t.current_col) (h5 : t.current_col < (t.headers.length : Int)) :
    keypress env t ("page up".toList)
      = (update_display
          { t with
            vertical_offset := max 0 (t.vertical_offset - max 1 (Int.fdiv t.max_height 2)),
            current_row := max 0 (t.current_row - max 1 (Int.fdiv t.max_height 2)) } none,
         KeyRes.consumed) ∧
    keypress env t ("page down".toList)
      = (update_display
          { t with
            vertical_offset := min (max 0 ((t.data.length : Int) - (t.max_height - 1)))
              (t.vertical_offset + max 1 (Int.fdiv t.max_height 2)),
            current_row := min ((t.data.length : Int) - 1)
              (t.current_row + max 1 (Int.fdiv t.max_height 2)) } none,
         KeyRes.consumed) := by
  have hhalf : get_half_page_size t = max 1 (Int.fdiv t.max_height 2) := by
    unfold get_half_page_size
    rw [if_neg (by omega : ¬ t.max_height = 0)]
  constructor
  · rw [keypress_nav env t _ he hp]
    have hb : navigation_keypress t ("page up".toList)
        = (update_display
            (ensure_current_cell_visible
              { t with
                vertical_offset := max 0 (t.vertical_offset - get_half_page_size t),
                current_row := max 0 (t.current_row - get_half_page_size t) } none) none,
           KeyRes.consumed) := by
      unfold navigation_keypress
      rw [if_neg (by decide : ¬ ("page up".toList = "enter".toList)),
        if_neg (by decide : ¬ ("page up".toList = "up".toList)),
        if_neg (by decide : ¬ ("page up".toList = "down".toList)),
        if_neg (by decide : ¬ ("page up".toList = "left".toList)),
        if_neg (by decide : ¬ ("page up".toList = "right".toList)), if_pos rfl]
    rw [hb, hhalf]
    have happ : update_display (ensure_current_cell_visible
        { t with
          vertical_offset := max 0 (t.vertical_offset - max 1 (Int.fdiv t.max_height 2)),
          current_row := max 0 (t.current_row - max 1 (Int.fdiv t.max_height 2)) } none) none
        = update_display
          { t with
            vertical_offset := max 0 (t.vertical_offset - max 1 (Int.fdiv t.max_height 2)),
            current_row := max 0 (t.current_row - max 1 (Int.fdiv t.max_height 2)) } none := by
      apply update_display_ensure
      · exact hmh
      · exact le_max_left _ _
      · exact h4
      · exact h5
    rw [happ]
  · rw [keypress_nav env t _ he hp]
    have hb : navigation_keypress t ("page down".toList)
        = (update_display
            (ensure_current_cell_visible
              { t with
                vertical_offset := min (max 0 ((t.data.length : Int) - (t.max_height - 1)))
                  (t.vertical_offset + get_half_page_size t),
                current_row := min ((t.data.length : Int) - 1)
                  (t.current_row + get_half_page_size t) } none) none,
           KeyRes.consumed) := by
      unfold navigation_keypress
      rw [if_neg (by decide : ¬ ("page down".toList = "enter".toList)),
        if_neg (by decide : ¬ ("page down".toList = "up".toList)),
        if_neg (by decide : ¬ ("page down".toList = "down".toList)),
        if_neg (by decide : ¬ ("page down".toList = "left".toList)),
        if_neg (by decide : ¬ ("page down".toList = "right".toList)),
        if_neg (by decide : ¬ ("page down".toList = "page up".toList)), if_pos rfl]
    rw [hb, hhalf]
    have happ : update_display (ensure_current_cell_visible
        { t with
          vertical_offset := min (max 0 ((t.data.length : Int) - (t.max_height - 1)))
            (t.vertical_offset + max 1 (Int.fdiv t.max_height 2)),
          current_row := min ((t.data.length : Int) - 1)
            (t.current_row + max 1 (Int.fdiv t.max_height 2)) } none) none
        = update_display
          { t with
            vertical_offset := min (max 0 ((t.data.length : Int) - (t.max_height - 1)))
              (t.vertical_offset + max 1 (Int.fdiv t.max_height 2)),
            current_row := min ((t.data.length : Int) - 1)
              (t.current_row + max 1 (Int.fdiv t.max_height 2)) } none := by
      apply update_display_ensure
      · exact hmh
      · show (0 : Int) ≤ min (max 0 ((t.data.length : Int) - (t.max_height - 1)))
          (t.vertical_offset + max 1 (Int.fdiv t.max_height 2))
        omega
      · exact h4
      · exact h5
    rw [happ]

theorem c4_page_keys_witness :
    keypress ⟨none, none, false⟩ sampleTable ("page up".toList)
      = (update_display
          { sampleTable with
            vertical_offset := max 0 (sampleTable.vertical_offset
              - max 1 (Int.fdiv sampleTable.max_height 2)),
            current_row := max 0 (sampleTable.current_row
              - max 1 (Int.fdiv sampleTable.max_height 2)) } none,
         KeyRes.consumed) ∧
    keypress ⟨none, none, false⟩ sampleTable ("page down".toList)
      = (update_display
          { sampleTable with
            vertical_offset := min (max 0 ((sampleTable.data.length : Int)
                - (sampleTable.max_height - 1)))
              (sampleTable.vertical_offset + max 1 (Int.fdiv sampleTable.max_height 2)),
            current_row := min ((sampleTable.data.length : Int) - 1)
              (sampleTable.current_row + max 1 (Int.fdiv sampleTable.max_height 2)) } none,
         KeyRes.consumed) :=
  c4_page_keys ⟨none, none, false⟩ sampleTable rfl rfl (by decide) (by decide) (by decide)
    (by decide)

/-! Claim C3: the navigation-mode invariant. -/

/-- The cursor is inside the grid and both scroll offsets are
nonnegative. -/
def nav_inv (t : Table) : Prop :=
  0 ≤ t.current_row ∧ t.current_row < (t.data.length : Int) ∧
  0 ≤ t.current_col ∧ t.current_col < (t.headers.length : Int) ∧
  0 ≤ t.vertical_offset ∧ 0 ≤ t.horizontal_offset

/-- Deliver a sequence of keypress events, each handled in navigation
mode (events arriving while the widget is in editing mode are handled by
the edit path and are not part of a navigation-mode sequence, so the fold
skips them). -/
def run_nav_keys (t : Table) (evs : List (Env × PyStr)) : Table :=
  evs.foldl (fun s e => if s.editing then s else (keypress e.1 s e.2).1) t

theorem downFrom_mem_nonneg : ∀ (n : Nat) (x : Int), x ∈ downFrom n → 0 ≤ x := by
  intro n
  induction n with
  | zero =>
    intro x hx
    rw [show downFrom 0 = [0] from rfl] at hx
    simp at hx
    omega
  | succ m ih =>
    intro x hx
    rw [show downFrom (m + 1) = ((m : Int) + 1) :: downFrom m from rfl] at hx
    rcases List.mem_cons.mp hx with he | hm
    · omega
    · exact ih x hm

theorem cols_to_show_go_mem_nonneg (widths : List Nat) (aw : Int) :
    ∀ (cols : List Int) (total : Int) (acc : List Int),
      (∀ x ∈ cols, 0 ≤ x) → (∀ x ∈ acc, 0 ≤ x) →
      ∀ x ∈ cols_to_show_go widths cols aw total acc, 0 ≤ x := by
  intro cols
  induction cols with
  | nil => intro total acc _ hacc x hx; exact hacc x hx
  | cons c rest ih =>
    intro total acc hcols hacc x hx
    simp only [cols_to_show_go] at hx
    split at hx
    · refine ih _ _ (fun y hy => hcols y (List.mem_cons_of_mem c hy)) ?_ x hx
      intro y hy
      rcases List.mem_cons.mp hy with he | hm
      · rw [he]; exact hcols c (List.mem_cons_self c rest)
      · exact hacc y hm
    · exact hacc x hx

theorem fix_horizontal_hoff_nonneg (t : Table) (aw : Int)
    (h4 : 0 ≤ t.current_col) (hh : 0 ≤ t.horizontal_offset) :
    0 ≤ (fix_horizontal t aw).horizontal_offset := by
  unfold fix_horizontal
  split
  · exact hh
  · split
    · show (0 : Int) ≤ max 0 t.current_col
      omega
    · cases hsh : cols_to_show_go t.column_widths (downRange t.current_col) aw 0 [] with
      | nil =>
        exact hh
      | cons j rest =>
        show (0 : Int) ≤ j
        have hmem : j ∈ cols_to_show_go t.column_widths (downRange t.current_col) aw 0 [] := by
          rw [hsh]
          exact List.mem_cons_self _ _
        refine cols_to_show_go_mem_nonneg t.column_widths aw _ 0 [] ?_ (by simp) j hmem
        intro x hx
        unfold downRange at hx
        split at hx <;>
          first
          | exact downFrom_mem_nonneg _ x hx
          | simp at hx

theorem ensure_inv (t : Table) (a : Option Int) (h : nav_inv t) :
    nav_inv (ensure_current_cell_visible t a) := by
  obtain ⟨h1, h2, h3, h4, h5, h6⟩ := h
  refine ⟨?_, ?_, ?_, ?_, ?_, ?_⟩
  · rw [ensure_current_row]; exact h1
  · rw [ensure_current_row, ensure_data]; exact h2
  · rw [ensure_current_col]; exact h3
  · rw [ensure_current_col, ensure_headers]; exact h4
  · rw [ensure_vertical_offset]; split_ifs <;> omega
  · show 0 ≤ (fix_horizontal (ensure_vertical t) (resolve_width t a)).horizontal_offset
    apply fix_horizontal_hoff_nonneg
    · simpa using h3
    · simpa using h6

theorem update_display_inv (t : Table) (a : Option Int) (h : nav_inv t) :
    nav_inv (update_display t a) := by
  obtain ⟨e1, e2, e3, e4, e5, e6⟩ := ensure_inv t a h
  refine ⟨?_, ?_, ?_, ?_, ?_, ?_⟩
  · rw [update_display_current_row]; exact h.1
  · rw [update_display_current_row, update_display_data]; exact h.2.1
  · rw [update_display_current_col]; exact h.2.2.1
  · rw [update_display_current_col, update_display_headers]; exact h.2.2.2.1
  · rw [update_display_vertical_offset]; exact e5
  · rw [update_display_horizontal_offset]; exact e6

theorem on_cell_change_inv (t : Table) (r c : Int) (v : PyStr) (h : nav_inv t) :
    nav_inv (on_cell_change t r c v) := by
  unfold on_cell_change
  split
  · apply update_display_inv
    obtain ⟨h1, h2, h3, h4, h5, h6⟩ := h
    refine ⟨h1, ?_, h3, h4, h5, h6⟩
    show t.current_row < ((pySet t.data r (pySet (pyGet t.data r []) c v)).length : Int)
    rw [pySet_length]
    exact h2
  · exact h

theorem trigger_inv (t : Table) (h : nav_inv t) : nav_inv (trigger_dropdown_popup t) := by
  unfold trigger_dropdown_popup
  split
  · exact ⟨h.1, h.2.1, h.2.2.1, h.2.2.2.1, h.2.2.2.2.1, h.2.2.2.2.2⟩
  · exact h

theorem start_editing_inv (t : Table) (h : nav_inv t) :
    nav_inv (start_editing_current_cell t) := by
  unfold start_editing_current_cell
  split_ifs
  · exact h
  · exact h
  · exact h
  · apply update_display_inv
    exact ⟨h.1, h.2.1, h.2.2.1, h.2.2.2.1, h.2.2.2.2.1, h.2.2.2.2.2⟩

theorem navigation_keypress_inv (t : Table) (key : PyStr) (h : nav_inv t) :
    nav_inv (navigation_keypress t key).1 := by
  obtain ⟨h1, h2, h3, h4, h5, h6⟩ := h
  have hInv : nav_inv t := ⟨h1, h2, h3, h4, h5, h6⟩
  have hH : 1 ≤ get_half_page_size t := le_max_left 1 _
  unfold navigation_keypress
  split_ifs with k1 k2 k3 k4 k5 k6 k7 k8 k9 k10 k11 k12 k13
  · exact trigger_inv t hInv
  · exact start_editing_inv t hInv
  · refine update_display_inv _ none (ensure_inv _ none ⟨?_, ?_, h3, h4, h5, h6⟩)
    · show (0 : Int) ≤ t.current_row - 1
      omega
    · show t.current_row - 1 < (t.data.length : Int)
      omega
  · exact hInv
  · refine update_display_inv _ none (ensure_inv _ none ⟨?_, ?_, h3, h4, h5, h6⟩)
    · show (0 : Int) ≤ t.current_row + 1
      omega
    · show t.current_row + 1 < (t.data.length : Int)
      omega
  · exact hInv
  · refine update_display_inv _ none (ensure_inv _ none ⟨h1, h2, ?_, ?_, h5, h6⟩)
    · show (0 : Int) ≤ t.current_col - 1
      omega
    · show t.current_col - 1 < (t.headers.length : Int)
      omega
  · exact hInv
  · refine update_display_inv _ none (ensure_inv _ none ⟨h1, h2, ?_, ?_, h5, h6⟩)
    · show (0 : Int) ≤ t.current_col + 1
      omega
    · show t.current_col + 1 < (t.headers.length : Int)
      omega
  · exact hInv
  · refine update_display_inv _ none (ensure_inv _ none ⟨?_, ?_, h3, h4, ?_, h6⟩)
    · show (0 : Int) ≤ max 0 (t.current_row - get_half_page_size t)
      omega
    · show max 0 (t.current_row - get_half_page_size t) < (t.data.length : Int)
      omega
    · show (0 : Int) ≤ max 0 (t.vertical_offset - get_half_page_size t)
      omega
  · refine update_display_inv _ none (ensure_inv _ none ⟨?_, ?_, h3, h4, ?_, h6⟩)
    · show (0 : Int) ≤ min ((t.data.length : Int) - 1) (t.current_row + get_half_page_size t)
      omega
    · show min ((t.data.length : Int) - 1) (t.current_row + get_half_page_size t)
        < (t.data.length : Int)
      omega
    · show (0 : Int) ≤ min (max 0 ((t.data.length : Int) - (t.max_height - 1)))
        (t.vertical_offset + get_half_page_size t)
      omega
  · exact hInv
  · exact hInv

theorem keypress_inv (env : Env) (t : Table) (key : PyStr)
    (he : t.editing = false) (h : nav_inv t) : nav_inv (keypress env t key).1 := by
  unfold keypress
  rw [he]
  simp only [Bool.false_eq_true, if_false]
  split_ifs with p1 p2 p3 p4
  · exact h
  · cases hc : env.popup_choice with
    | some v =>
      have hocc := on_cell_change_inv t t.current_row t.current_col v h
      exact ⟨hocc.1, hocc.2.1, hocc.2.2.1, hocc.2.2.2.1, hocc.2.2.2.2.1, hocc.2.2.2.2.2⟩
    | none =>
      exact h
  · exact ⟨h.1, h.2.1, h.2.2.1, h.2.2.2.1, h.2.2.2.2.1, h.2.2.2.2.2⟩
  · exact navigation_keypress_inv t key h
  · exact navigation_keypress_inv t key h

theorem run_nav_keys_inv (evs : List (Env × PyStr)) :
    ∀ t : Table, nav_inv t → nav_inv (run_nav_keys t evs) := by
  induction evs with
  | nil => intro t h; exact h
  | cons e rest ih =>
    intro t h
    show nav_inv (run_nav_keys (if t.editing then t else (keypress e.1 t e.2).1) rest)
    by_cases he : t.editing
    · rw [if_pos he]; exact ih t h
    · rw [if_neg he]
      refine ih _ (keypress_inv e.1 t e.2 ?_ h)
      simpa using he

/-- C3: starting from a freshly constructed table over nonempty data and
headers, every sequence of keypress events handled in navigation mode
keeps the cursor inside the grid and both scroll offsets nonnegative. -/
theorem c3_navigation_invariant (headers : List PyStr) (data : List (List PyStr))
    (mw mh : Int) (cts : Int → PyStr) (dopts : Int → Option (List PyStr))
    (evs : List (Env × PyStr))
    (hd : data ≠ []) (hh : headers ≠ []) (hmh : 2 ≤ mh) :
    nav_inv (run_nav_keys (mkTable headers data mw mh cts dopts) evs) := by
  apply run_nav_keys_inv
  have hld : 0 < data.length := List.length_pos.mpr hd
  have hlh : 0 < headers.length := List.length_pos.mpr hh
  refine ⟨?_, ?_, ?_, ?_, ?_, ?_⟩
  · show (0 : Int) ≤ 0
    omega
  · show (0 : Int) < (data.length : Int)
    omega
  · show (0 : Int) ≤ 0
    omega
  · show (0 : Int) < (headers.length : Int)
    omega
  · show (0 : Int) ≤ 0
    omega
  · show (0 : Int) ≤ 0
    omega

theorem c3_navigation_invariant_witness :
    nav_inv (run_nav_keys
      (mkTable sampleHeaders sampleData 30 4 (process_column_types none) (fun _ => none))
      [(⟨none, none, false⟩, "down".toList), (⟨none, none, false⟩, "right".toList),
       (⟨none, none, false⟩, "page down".toList), (⟨none, none, false⟩, "up".toList)]) :=
  c3_navigation_invariant sampleHeaders sampleData 30 4 (process_column_types none)
    (fun _ => none) _ (by decide) (by decide) (by decide)

/-! Counterexamples: the navigation claims fail as stated when a dropdown
popup is open, and the page-key claim fails when `max_height` is 0
(the code falls back to `max_height or 20` for the page size). -/

/-- A reachable state with an open dropdown popup: from a fresh one-column
dropdown table, press `'down'` (cursor to row 1) and then `'enter'`
(opens the popup of the current dropdown cell). -/
def c2CounterTable : Table :=
  (keypress ⟨none, none, false⟩
    ((keypress ⟨none, none, false⟩
      (mkTable ["Status".toList] [["Active".toList], ["Pending".toList]] 30 4
        (process_column_types (some [typeDropdown])) (fun _ => none))
      ("down".toList)).1)
    ("enter".toList)).1

theorem c2_arrow_keys_counterexample :
    c2CounterTable.editing = false ∧
    0 < c2CounterTable.current_row ∧
    (keypress ⟨none, none, false⟩ c2CounterTable ("up".toList)).1.current_row
      ≠ c2CounterTable.current_row - 1 := by
  decide

/-- A table constructed with `max_height = 0`, scrolled by one
`'page down'`. -/
def c4CounterTable : Table :=
  (keypress ⟨none, none, false⟩
    (mkTable ["a".toList] (List.replicate 12 ["x".toList]) 30 0
      (process_column_types none) (fun _ => none))
    ("page down".toList)).1

theorem c4_page_keys_counterexample :
    c4CounterTable.editing = false ∧
    c4CounterTable.popup_open = false ∧
    (keypress ⟨none, none, false⟩ c4CounterTable ("page up".toList)).1.vertical_offset
      ≠ (update_display
          { c4CounterTable with
            vertical_offset := max 0 (c4CounterTable.vertical_offset
              - max 1 (Int.fdiv c4CounterTable.max_height 2)),
            current_row := max 0 (c4CounterTable.current_row
              - max 1 (Int.fdiv c4CounterTable.max_height 2)) } none).vertical_offset := by
  decide

end UrwScrollTable
